import Mathlib

/-
Shallow embedding of the conversational state & command-dispatch engine of
src/index.js (a WhatsApp assistant webhook).

Modelling conventions:
* JavaScript strings are modelled as `List Char` (`Str`).  The source only ever
  slices at offsets that fall inside ASCII command literals, so the
  code-unit/code-point distinction of JS strings never moves a cut point.
* JavaScript numbers are modelled as exact rationals (`ℚ`).  Every numeric
  value reaching the modelled code is parsed from a decimal literal, and JS
  prints such values back with shortest-round-trip formatting, so parsing and
  printing through exact rationals reproduces the observable behaviour.
* `Math.random`-based ids and clock reads (`nowISO`, `todayStr`, `addDays`)
  are modelled as fields of an `Env` record supplied per request.
* Fallible external calls (the Tavily search provider, the completion model)
  are modelled by response data carried in `Env`.
-/

/-- A JavaScript string, modelled as its list of characters. -/
abbrev Str := List Char

/-- The character list of a Lean string literal. -/
def S (s : String) : Str := s.toList

/-- JS `String.prototype.toLowerCase` (ASCII; the command tokens are ASCII and
Arabic has no letter case, so mapping `Char.toLower` matches the source). -/
def jsToLower (s : Str) : Str := s.map Char.toLower

/-- JS `String.prototype.toUpperCase` (same ASCII caveat as `jsToLower`). -/
def jsToUpper (s : Str) : Str := s.map Char.toUpper

/-- JS `String.prototype.trim` (whitespace at both ends). -/
def jsTrim (s : Str) : Str :=
  ((s.dropWhile Char.isWhitespace).reverse.dropWhile Char.isWhitespace).reverse

/-- One step of `splitCh`: push a character onto the first chunk. -/
def consHead (c : Char) : List Str → List Str
  | [] => [[c]]
  | w :: ws => (c :: w) :: ws

/-- JS `String.prototype.split` with a single-character separator: keeps empty
chunks, and splitting the empty string yields `[""]`. -/
def splitCh (sep : Char) : Str → List Str
  | [] => [[]]
  | c :: cs => if c = sep then [] :: splitCh sep cs else consHead c (splitCh sep cs)

/-- JS `String.prototype.replace` with a plain-string pattern: replaces only
the FIRST occurrence (the source relies on this in `/profile set`). -/
def replaceFirst (pat rep : Str) : Str → Str
  | [] => if pat.isEmpty then rep else []
  | c :: cs =>
    if pat.isPrefixOf (c :: cs) then rep ++ (c :: cs).drop pat.length
    else c :: replaceFirst pat rep cs

/-- JS `String.prototype.replace(/_/g, " ")`-style global single-char
replacement. -/
def jsReplaceAll (s : Str) (c r : Char) : Str :=
  s.map (fun x => if x = c then r else x)

/-
The library operations `Rat.add`, `Rat.mul`, `Rat.inv`, `Rat.sub` are
`@[irreducible]`, which blocks kernel evaluation (`decide`) of concrete runs
of the model.  The model therefore uses the following kernel-computable
arithmetic, built from `mkRat`; each operation is proved extensionally equal
to the corresponding ring operation on `ℚ`.
-/

/-- `a / n` for a natural divisor, kernel-computable. -/
def qDivNat (a : ℚ) (n : Nat) : ℚ := mkRat a.num (a.den * n)

/-- `a * n` for a natural factor, kernel-computable. -/
def qMulNat (a : ℚ) (n : Nat) : ℚ := mkRat (a.num * (n : ℤ)) a.den

/-- `a - d` for an integer subtrahend, kernel-computable. -/
def qSubInt (a : ℚ) (d : ℤ) : ℚ := mkRat (a.num - d * (a.den : ℤ)) a.den

/-- `a * 10 ^ ex` for an integer exponent, kernel-computable. -/
def qMulPow10 (a : ℚ) (ex : ℤ) : ℚ :=
  if 0 ≤ ex then mkRat (a.num * ((10 : ℕ) ^ ex.toNat : ℕ)) a.den
  else mkRat a.num (a.den * (10 : ℕ) ^ (-ex).toNat)

theorem qDivNat_eq (a : ℚ) (n : Nat) : qDivNat a n = a / n := by
  rw [qDivNat, Rat.mkRat_eq_div]
  push_cast
  rw [← div_div, Rat.num_div_den]

theorem qMulNat_eq (a : ℚ) (n : Nat) : qMulNat a n = a * n := by
  rw [qMulNat, Rat.mkRat_eq_div]
  push_cast
  conv_rhs => rw [← Rat.num_div_den a]
  rw [div_mul_eq_mul_div]

theorem qSubInt_eq (a : ℚ) (d : ℤ) : qSubInt a d = a - d := by
  rw [qSubInt, Rat.mkRat_eq_div]
  push_cast
  rw [sub_div]
  conv_rhs => rw [← Rat.num_div_den a]
  rw [mul_div_assoc, div_self (by exact_mod_cast a.den_nz), mul_one]

theorem qMulPow10_eq (a : ℚ) (ex : ℤ) : qMulPow10 a ex = a * (10 : ℚ) ^ ex := by
  rw [qMulPow10]
  split
  · rename_i h
    rw [Rat.mkRat_eq_div]
    push_cast
    conv_rhs => rw [← Rat.num_div_den a]
    rw [div_mul_eq_mul_div, ← zpow_natCast (10 : ℚ), Int.toNat_of_nonneg h]
  · rename_i h
    rw [Rat.mkRat_eq_div]
    push_cast
    rw [← div_div, Rat.num_div_den, ← zpow_natCast (10 : ℚ),
      Int.toNat_of_nonneg (by omega : (0:ℤ) ≤ -ex), div_eq_mul_inv, ← zpow_neg,
      neg_neg]

/-- Digits of a character run, interpreted in base 10. -/
def digitsToNat (ds : Str) : Nat :=
  ds.foldl (fun n c => n * 10 + (c.toNat - 48)) 0

/-- Split a leading run of decimal digits from the rest. -/
def takeDigits (s : Str) : Str × Str :=
  (s.takeWhile Char.isDigit, s.dropWhile Char.isDigit)

/-- Mantissa part of a JS decimal number literal: `digits`, `digits.digits`,
`digits.` or `.digits`.  Returns the value (integer part plus fractional part
over the matching power of ten, built with `mkRat` so it kernel-evaluates) and
the unconsumed remainder. -/
def parseDecMantissa (s : Str) : Option (ℚ × Str) :=
  let ip := (takeDigits s).1
  let r1 := (takeDigits s).2
  match r1 with
  | '.' :: r2 =>
    let fp := (takeDigits r2).1
    let r3 := (takeDigits r2).2
    if ip.isEmpty ∧ fp.isEmpty then none
    else some (mkRat (digitsToNat ip * 10 ^ fp.length + digitsToNat fp : ℕ)
      ((10 : ℕ) ^ fp.length), r3)
  | _ => if ip.isEmpty then none else some ((digitsToNat ip : ℚ), r1)

/-- Exponent tail of a JS number literal (after the `e`/`E`): an optional sign
followed by digits, which must consume the whole remainder. -/
def parseExpTail (s : Str) : Option ℤ :=
  let sgn : ℤ := match s with
    | '-' :: _ => -1
    | _ => 1
  let r : Str := match s with
    | '+' :: r => r
    | '-' :: r => r
    | _ => s
  let ds := (takeDigits r).1
  let rest := (takeDigits r).2
  if ds.isEmpty ∨ ¬ rest.isEmpty then none else some (sgn * (digitsToNat ds : ℤ))

/-- An unsigned JS decimal number literal with optional exponent. -/
def parseUnsignedDec (s : Str) : Option ℚ :=
  match parseDecMantissa s with
  | none => none
  | some (m, rest) =>
    match rest with
    | [] => some m
    | e :: r =>
      if e = 'e' ∨ e = 'E' then
        match parseExpTail r with
        | some ex => some (qMulPow10 m ex)
        | none => none
      else none

/-- A signed JS decimal number literal. -/
def parseSignedDec (t : Str) : Option ℚ :=
  match t with
  | '+' :: r => parseUnsignedDec r
  | '-' :: r => (parseUnsignedDec r).map Neg.neg
  | _ => parseUnsignedDec t

/-- Value of one digit in the given base, if it is one. -/
def radixDigit (base : Nat) (c : Char) : Option Nat :=
  let v :=
    if '0' ≤ c ∧ c ≤ '9' then some (c.toNat - 48)
    else if 'a' ≤ c ∧ c ≤ 'f' then some (c.toNat - 87)
    else if 'A' ≤ c ∧ c ≤ 'F' then some (c.toNat - 55)
    else none
  match v with
  | some d => if d < base then some d else none
  | none => none

/-- A nonempty all-digit run in the given base. -/
def parseRadix (base : Nat) (ds : Str) : Option Nat :=
  if ds.isEmpty then none
  else ds.foldl (fun acc c =>
    match acc, radixDigit base c with
    | some n, some d => some (n * base + d)
    | _, _ => none) (some 0)

/-- JS `Number(string)`.  `none` stands for a value with
`Number.isFinite(x) = false` (NaN or an infinity): the source only ever feeds
the result to `Number.isFinite`, where the two are indistinguishable.
The empty (or all-whitespace) string converts to `0`; `0x`/`0o`/`0b` literals
are unsigned; anything else is a signed decimal literal with optional
exponent. -/
def jsNumber (s : Str) : Option ℚ :=
  let t := jsTrim s
  if t.isEmpty then some 0
  else if t = S "Infinity" ∨ t = S "+Infinity" ∨ t = S "-Infinity" then none
  else
    match t with
    | '0' :: c :: r =>
      if c = 'x' ∨ c = 'X' then (parseRadix 16 r).map (fun n => (n : ℚ))
      else if c = 'o' ∨ c = 'O' then (parseRadix 8 r).map (fun n => (n : ℚ))
      else if c = 'b' ∨ c = 'B' then (parseRadix 2 r).map (fun n => (n : ℚ))
      else parseSignedDec t
    | _ => parseSignedDec t

/-- JS `Math.round`: the floor of `q + 1/2` (nearest integer, halves toward
positive infinity), written with the kernel-computable addition. -/
def jsRound (q : ℚ) : ℤ := Rat.floor (mkRat (q.num * 2 + (q.den : ℤ)) (q.den * 2))

theorem jsRound_eq (q : ℚ) : jsRound q = Rat.floor (q + 1 / 2) := by
  rw [jsRound]
  congr 1
  rw [Rat.mkRat_eq_div]
  push_cast
  rw [add_div, mul_div_mul_right _ _ (two_ne_zero), Rat.num_div_den,
    div_mul_eq_div_div, div_self (by exact_mod_cast q.den_nz), one_div]

/-- Decimal expansion of a fractional part `0 ≤ q < 1`, up to the given fuel.
Every value in the modelled program comes from a short decimal literal, so the
expansion terminates well before the fuel runs out. -/
def fracDigits : ℚ → Nat → Str
  | _, 0 => []
  | q, fuel + 1 =>
    if q = 0 then []
    else
      let q10 := qMulNat q 10
      let d := Rat.floor q10
      Char.ofNat (48 + d.toNat) :: fracDigits (qSubInt q10 d) fuel

/-- Decimal notation for a nonnegative rational. -/
def numToStrNN (q : ℚ) : Str :=
  let ip := (Rat.floor q).toNat
  let fr := qSubInt q (Rat.floor q)
  if fr = 0 then Nat.toDigits 10 ip
  else Nat.toDigits 10 ip ++ '.' :: fracDigits fr 30

/-- JS number-to-string coercion (template literals): integers print without a
decimal point, other values with their decimal expansion.  JS prints the
shortest round-tripping decimal of a double; on this model's exact rationals,
which all come from short decimal literals, that is the exact expansion. -/
def numToStr (q : ℚ) : Str :=
  if q < 0 then '-' :: numToStrNN (-q) else numToStrNN q

/-- First-match lookup in an association list (a JS object has unique keys, so
this is the object property read). -/
def lookupKV (k : Str) : List (Str × α) → Option α
  | [] => none
  | (k', v) :: r => if k' = k then some v else lookupKV k r

/-- JS object property write: overwrite in place if the key exists, otherwise
append. -/
def insertKV (k : Str) (v : α) : List (Str × α) → List (Str × α)
  | [] => [(k, v)]
  | (k', v') :: r => if k' = k then (k, v) :: r else (k', v') :: insertKV k v r

/-- `parseKeyValues` (src/index.js:212): split on single spaces, drop empty
chunks, split each chunk at its first `=`, trim both sides, skip chunks
without `=` or with an empty key. -/
def parseKeyValues (raw : Str) : List (Str × Str) :=
  let parts := (splitCh ' ' raw).filter (fun p => ¬ p.isEmpty)
  parts.foldl (fun out p =>
    match p.findIdx? (· = '=') with
    | none => out
    | some idx =>
      let k := jsTrim (p.take idx)
      let v := jsTrim (p.drop (idx + 1))
      if k.isEmpty then out else insertKV k v out) []

example : jsNumber (S "30") = some 30 := by decide
example : jsNumber (S "abc") = none := by decide
example : jsNumber (S "") = some 0 := by decide
example : jsNumber (S "1e1") = some 10 := by decide
example : jsNumber (S "-2.5") = some (mkRat (-5) 2) := by decide
example : numToStr 3 = S "3" := by decide
example : numToStr (mkRat 7 2) = S "3.5" := by decide
example : jsRound (mkRat 7 2) = 4 := by decide
example : parseKeyValues (S "sleep=30 work=5") =
    [(S "sleep", S "30"), (S "work", S "5")] := by decide
example : splitCh ' ' (S "/focus 45") = [S "/focus", S "45"] := by decide

/- ================= Data model (DEFAULT_USER, src/index.js:33-50) ============ -/

/-- Message role in the model-input list and the memory window. -/
inductive Role
  | user
  | assistant
  | system
deriving DecidableEq, Repr

/-- One memory/window entry `{role, content}`. -/
structure ChatMsg where
  role : Role
  content : Str
deriving DecidableEq, Repr

/-- One `notes` entry `{id, text, ts}`. -/
structure NoteItem where
  id : Str
  text : Str
  ts : Str
deriving DecidableEq, Repr

/-- One `todos` entry `{id, text, done, ts}`. -/
structure TodoItem where
  id : Str
  text : Str
  done : Bool
  ts : Str
deriving DecidableEq, Repr

/-- One daily-plan entry `{id, text, done, ts}`. -/
structure PlanItem where
  id : Str
  text : Str
  done : Bool
  ts : Str
deriving DecidableEq, Repr

/-- One `rituals.morning` date entry `{intention, top3, stress, step}`;
every field may be absent. -/
structure MorningEntry where
  intention : Option Str := none
  top3 : Option (List Str) := none
  stress : Option ℚ := none
  step : Option Str := none
deriving DecidableEq, Repr

/-- One `rituals.night` date entry `{win, hard, learn, tomorrow}`. -/
structure NightEntry where
  win : Option Str := none
  hard : Option Str := none
  learn : Option Str := none
  tomorrow : Option Str := none
deriving DecidableEq, Repr

/-- One `mood` entry `{v, note?, ts}` (declared in DEFAULT_USER; no command
writes it). -/
structure MoodItem where
  v : ℚ
  note : Option Str := none
  ts : Str
deriving DecidableEq, Repr

/-- `balance.targets`: daily target hours. -/
structure BalanceTargets where
  sleep : ℚ
  work : ℚ
  love : ℚ
  health : ℚ
  rest : ℚ
deriving DecidableEq, Repr

/-- `balance` wrapper object. -/
structure Balance where
  targets : BalanceTargets
deriving DecidableEq, Repr

/-- `prefs` object `{mode, lang}`. -/
structure Prefs where
  mode : Str
  lang : Str
deriving DecidableEq, Repr

/-- `rituals` object: date-keyed morning and night records. -/
structure Rituals where
  morning : List (Str × MorningEntry)
  night : List (Str × NightEntry)
deriving DecidableEq, Repr

/-- A fully-shaped per-sender record (the shape `getUser` guarantees). -/
structure User where
  prefs : Prefs
  profile : List (Str × Str)
  notes : List NoteItem
  todos : List TodoItem
  plans : List (Str × List PlanItem)
  planCursor : Option Str
  mood : List MoodItem
  rituals : Rituals
  balance : Balance
  memory : List ChatMsg
deriving DecidableEq, Repr

/-- A possibly old-version persisted record: every structured field may be
missing or null (`none`).  `planCursor` distinguishes a missing key (outer
`none`) from a stored `null` (`some none`). -/
structure RawRituals where
  morning : Option (List (Str × MorningEntry)) := none
  night : Option (List (Str × NightEntry)) := none
deriving DecidableEq, Repr

/-- Possibly-partial `balance` object. -/
structure RawBalance where
  targets : Option BalanceTargets := none
deriving DecidableEq, Repr

/-- A persisted per-sender record whose fields may be absent. -/
structure RawUser where
  prefs : Option Prefs := none
  profile : Option (List (Str × Str)) := none
  notes : Option (List NoteItem) := none
  todos : Option (List TodoItem) := none
  plans : Option (List (Str × List PlanItem)) := none
  planCursor : Option (Option Str) := none
  mood : Option (List MoodItem) := none
  rituals : Option RawRituals := none
  balance : Option RawBalance := none
  memory : Option (List ChatMsg) := none
deriving DecidableEq, Repr

/-- `DEFAULT_PROFILE` (src/index.js:20-31), as an insertion-ordered open
string map. -/
def DEFAULT_PROFILE : List (Str × Str) :=
  [ (S "name", S "Zakaria Oulqaid"),
    (S "role", S "Cybersecurity PhD student (dev profile)"),
    (S "phd_topic", S "Security-by-Design for Smart Factories: Intelligent Threat Detection and Resilience for Industrial IoT and Critical Infrastructures"),
    (S "focus", S "AI-based threat detection, zero trust, resilience for IIoT; datasets & simulation."),
    (S "languages", S "Arabic/French/English"),
    (S "style", S "assistant"),
    (S "preferences", S "Help me with wellbeing, stress management, and my relationship with Hasnae. Be empathetic, practical, and concise.") ]

/-- The default balance targets `{sleep: 7, work: 6, love: 2, health: 1, rest: 1}`. -/
def defaultTargets : BalanceTargets :=
  { sleep := 7, work := 6, love := 2, health := 1, rest := 1 }

/-- `DEFAULT_USER` (src/index.js:33-50). -/
def DEFAULT_USER : RawUser :=
  { prefs := some { mode := S "assistant", lang := S "auto" },
    profile := some DEFAULT_PROFILE,
    notes := some [],
    todos := some [],
    plans := some [],
    planCursor := some none,
    mood := some [],
    rituals := some { morning := some [], night := some [] },
    balance := some { targets := some defaultTargets },
    memory := some [] }

/-- The shape-repair sequence of `getUser` (src/index.js:76-88): each `||=`
fills a missing/null field with its default; `planCursor ??= null` only
materialises the key. -/
def ensureShape (u : RawUser) : RawUser :=
  let u := { u with prefs := some (u.prefs.getD { mode := S "assistant", lang := S "auto" }) }
  let u := { u with profile := some (u.profile.getD DEFAULT_PROFILE) }
  let u := { u with notes := some (u.notes.getD []) }
  let u := { u with todos := some (u.todos.getD []) }
  let u := { u with plans := some (u.plans.getD []) }
  let u := { u with planCursor := some (u.planCursor.getD none) }
  let u := { u with mood := some (u.mood.getD []) }
  let r0 := u.rituals.getD { morning := some [], night := some [] }
  let r1 := { r0 with morning := some (r0.morning.getD []) }
  let r2 := { r1 with night := some (r1.night.getD []) }
  let u := { u with rituals := some r2 }
  let b0 := u.balance.getD { targets := some defaultTargets }
  let b1 := { b0 with targets := some (b0.targets.getD defaultTargets) }
  let u := { u with balance := some b1 }
  { u with memory := some (u.memory.getD []) }

/-- View an ensured record as a fully-shaped `User` (the defaults here never
fire after `ensureShape`). -/
def fromEnsured (r : RawUser) : User :=
  { prefs := r.prefs.getD { mode := S "assistant", lang := S "auto" },
    profile := r.profile.getD DEFAULT_PROFILE,
    notes := r.notes.getD [],
    todos := r.todos.getD [],
    plans := r.plans.getD [],
    planCursor := (r.planCursor.getD none),
    mood := r.mood.getD [],
    rituals :=
      { morning := ((r.rituals.getD {}).morning.getD []),
        night := ((r.rituals.getD {}).night.getD []) },
    balance := { targets := ((r.balance.getD {}).targets.getD defaultTargets) },
    memory := r.memory.getD [] }

/-- Store a fully-shaped record back as a persisted record. -/
def toRaw (u : User) : RawUser :=
  { prefs := some u.prefs,
    profile := some u.profile,
    notes := some u.notes,
    todos := some u.todos,
    plans := some u.plans,
    planCursor := some u.planCursor,
    mood := some u.mood,
    rituals := some { morning := some u.rituals.morning, night := some u.rituals.night },
    balance := some { targets := some u.balance.targets },
    memory := some u.memory }

/-- The persisted store `db.users`: sender-id keyed records. -/
abbrev DB := List (Str × RawUser)

/-- `getUser` (src/index.js:72-90): create the record lazily from
`DEFAULT_USER`, repair its shape in place, and return it.  The store ends up
holding the repaired record (in JS the repair mutates the stored object). -/
def getUser (db : DB) (sender : Str) : User × DB :=
  let raw := (lookupKV sender db).getD DEFAULT_USER
  let e := ensureShape raw
  (fromEnsured e, insertKV sender e db)

/- ================= External request context ================================ -/

/-- One Tavily search result (only the fields the source reads). -/
structure TavilyResult where
  title : Str
  url : Str
deriving DecidableEq, Repr

/-- A parsed Tavily response body: any of the read fields may be absent. -/
structure TavilyResponse where
  error : Option Str := none
  answer : Option Str := none
  results : Option (List TavilyResult) := none
deriving DecidableEq, Repr

/-- Per-request external context: the clock (`todayStr`, `addDays(today,1)`,
successive `nowISO()` reads), the `Math.random` id supply (successive
`newId()` calls within one handler), the search-provider state and the
completion-model output for this request. -/
structure Env where
  today : Str
  tomorrow : Str
  freshId : Nat → Str
  nowAt : Nat → Str
  hasTavilyKey : Bool
  tavily : Str → TavilyResponse
  modelText : Str

/-- `webSearch` (src/index.js:93-101): without a credential the call is
short-circuited to an error object; otherwise the provider's parsed JSON body
is returned (an HTTP error body simply lacks a `results` list). -/
def webSearch (env : Env) (query : Str) : TavilyResponse :=
  if ¬ env.hasTavilyKey then { error := some (S "Missing TAVILY_API_KEY") }
  else env.tavily query

/-- JS truthiness of an optional string field. -/
def truthyS (o : Option Str) : Bool :=
  match o with
  | none => false
  | some s => ¬ s.isEmpty

/-- `fmtSearch` (src/index.js:102-108). -/
def fmtSearch (d : TavilyResponse) : Str :=
  if truthyS d.error then S "❌ " ++ d.error.getD []
  else if (d.results.getD []).isEmpty then S "ما لقيتش نتائج."
  else
    (if truthyS d.answer then S "🧠 " ++ d.answer.getD [] ++ S "\n\n" else []) ++
    S "🔗 Links:\n" ++
    List.intercalate (S "\n\n")
      ((d.results.getD []).mapIdx (fun i r =>
        Nat.toDigits 10 (i + 1) ++ S ") " ++ r.title ++ S "\n" ++ r.url))

/-- Read of `u.profile.<key>` inside a template literal: a missing key prints
as `undefined`. -/
def profGet (u : User) (k : Str) : Str :=
  (lookupKV k u.profile).getD (S "undefined")

/-- `systemPrompt` (src/index.js:111-128). -/
def systemPrompt (u : User) : Str :=
  let lang :=
    if u.prefs.lang ≠ S "auto" then S "Reply ONLY in " ++ jsToUpper u.prefs.lang ++ S "."
    else S "Reply in Arabic/French/English."
  let tone :=
    if lookupKV (S "style") u.profile = some (S "formal") then
      S "Use formal academic tone when relevant."
    else S "Be warm, empathetic, practical."
  List.intercalate (S "\n")
    [ S "You are a personal WhatsApp assistant.",
      S "Adapt to the USER PROFILE and support wellbeing, relationships, focus, and study.",
      lang,
      tone,
      [],
      S "USER PROFILE:",
      S "Name: " ++ profGet u (S "name"),
      S "Role: " ++ profGet u (S "role"),
      S "PhD: " ++ profGet u (S "phd_topic"),
      S "Focus: " ++ profGet u (S "focus"),
      S "Preferences: " ++ profGet u (S "preferences") ]

/- ================= Plan helpers (src/index.js:131-136) ===================== -/

/-- `planDate` (src/index.js:131): `u.planCursor || todayStr()` (an empty
string is falsy). -/
def planDate (env : Env) (u : User) : Str :=
  match u.planCursor with
  | some c => if c.isEmpty then env.today else c
  | none => env.today

/-- The list `planList(u, d)` evaluates to. -/
def planListGet (u : User) (d : Str) : List PlanItem :=
  (lookupKV d u.plans).getD []

/-- The side effect of `planList` (src/index.js:132): `u.plans[d] ||= []`
materialises an empty entry when the date key is absent. -/
def planMaterialize (u : User) (d : Str) : User :=
  match lookupKV d u.plans with
  | some _ => u
  | none => { u with plans := insertKV d [] u.plans }

/-- The text `showPlan` produces. -/
def showPlanText (u : User) (d : Str) : Str :=
  let l := planListGet u d
  if ¬ l.isEmpty then
    S "📅 " ++ d ++ S "\n" ++
      List.intercalate (S "\n")
        (l.map (fun p =>
          (if p.done then S "✅" else S "⬜") ++ S " " ++ p.id ++ S " — " ++ p.text))
  else S "📅 " ++ d ++ S "\n(empty)"

/-- `showPlan` (src/index.js:133-136): display plus the `planList`
materialisation side effect. -/
def showPlan (u : User) (d : Str) : Str × User :=
  let u1 := planMaterialize u d
  (showPlanText u1 d, u1)

/- ================= Balance (src/index.js:229-280) ========================== -/

/-- `showBalance` (src/index.js:229-238). -/
def showBalanceText (u : User) : Str :=
  let t := u.balance.targets
  List.intercalate (S "\n")
    [ S "⚖️ Balance targets (hours/day):",
      S "sleep=" ++ numToStr t.sleep ++ S ", work=" ++ numToStr t.work ++
        S ", love=" ++ numToStr t.love ++ S ", health=" ++ numToStr t.health ++
        S ", rest=" ++ numToStr t.rest,
      [],
      S "Tip: دير plan اليوم ووزّع وقتك عليها.",
      S "Edit example: /balance set sleep=7 work=6 love=2 health=1 rest=1" ]

/-- `showBalanceSchedule` (src/index.js:239-263): display plus the `planList`
materialisation side effect. -/
def showBalanceSchedule (u : User) (d : Str) : Str × User :=
  let u1 := planMaterialize u d
  let t := u1.balance.targets
  let tasks := ((planListGet u1 d).filter (fun x => ¬ x.done)).map (fun x => x.text)
  let blocks := List.intercalate (S "\n")
    [ S "🛌 Sleep: " ++ numToStr t.sleep ++ S "h",
      S "💼 Work/Thesis: " ++ numToStr t.work ++ S "h",
      S "❤️ Love/Relationship: " ++ numToStr t.love ++ S "h",
      S "🏃 Health: " ++ numToStr t.health ++ S "h",
      S "🧘 Rest: " ++ numToStr t.rest ++ S "h" ]
  let tasksLine :=
    if ¬ tasks.isEmpty then
      S "📌 Today tasks (from /plan): " ++ List.intercalate (S " | ") (tasks.take 5)
    else S "📌 No tasks yet. Add with /plan add ..."
  (List.intercalate (S "\n")
    [ S "⚖️ Balance schedule (" ++ d ++ S ")",
      blocks,
      [],
      tasksLine,
      [],
      S "Tip: دير 2 blocs ديال thesis (مثلاً 2×90min) وخلّي وقت للحياة ❤️" ], u1)

/-- One field of the unrolled `setBalance` loop (src/index.js:271-278):
`(new value, contribution to the changed counter)`. -/
def balanceFieldUpd (cur : ℚ) (v : Option Str) : ℚ × Nat :=
  match v with
  | none => (cur, 0)
  | some s =>
    match jsNumber s with
    | none => (cur, 0)
    | some q => if q < 0 ∨ 24 < q then (cur, 0) else (q, 1)

/-- `setBalance` (src/index.js:266-280), with the `for`-loop over
`["sleep","work","love","health","rest"]` unrolled (the five fields are
independent). -/
def setBalance (u : User) (raw : Str) : Str × User :=
  let kv := parseKeyValues raw
  let t := u.balance.targets
  let ps := balanceFieldUpd t.sleep (lookupKV (S "sleep") kv)
  let pw := balanceFieldUpd t.work (lookupKV (S "work") kv)
  let pl := balanceFieldUpd t.love (lookupKV (S "love") kv)
  let ph := balanceFieldUpd t.health (lookupKV (S "health") kv)
  let pr := balanceFieldUpd t.rest (lookupKV (S "rest") kv)
  let changed := ps.2 + pw.2 + pl.2 + ph.2 + pr.2
  let u' := { u with balance := { targets :=
    { sleep := ps.1, work := pw.1, love := pl.1, health := ph.1, rest := pr.1 } } }
  (if changed ≠ 0 then S "✅ Balance updated."
   else S "Use: /balance set sleep=7 work=6 love=2 health=1 rest=1", u')

/- ================= Rituals (src/index.js:157-226, 373-429) ================= -/

/-- `x || "-"` on an optional string field (empty is falsy). -/
def orDash (o : Option Str) : Str :=
  match o with
  | some s => if s.isEmpty then S "-" else s
  | none => S "-"

/-- `showMorning` (src/index.js:157-187): display plus the plan
materialisation done by the embedded `showBalanceSchedule`. -/
def showMorning (u : User) (d : Str) : Str × User :=
  let m := lookupKV d u.rituals.morning
  let header := S "☀️ Morning + Balance (" ++ d ++ S ")"
  let saved :=
    match m with
    | some mm =>
      List.intercalate (S "\n")
        [ S "Intention: " ++ orDash mm.intention,
          S "Top3: " ++
            (let j := List.intercalate (S ", ") (mm.top3.getD []);
             if j.isEmpty then S "-" else j),
          S "Stress: " ++ (match mm.stress with | some q => numToStr q | none => S "-"),
          S "First step: " ++ orDash mm.step ]
    | none =>
      List.intercalate (S "\n")
        [ S "1) نية اليوم (intention)؟",
          S "2) أهم 3 حاجات اليوم؟",
          S "3) مستوى الستريس (0–10)؟",
          S "4) خطوة صغيرة دابا؟",
          [],
          S "Save example:",
          S "/morning set intention=Peace top3=thesis,gym,message_hasnae stress=5 step=Start_10min_thesis" ]
  let sched := showBalanceSchedule u d
  (List.intercalate (S "\n")
    [ header, saved, [], sched.1, [], S "Auto plan: /morning auto" ], sched.2)

/-- `showNight` (src/index.js:189-210): pure display. -/
def showNight (u : User) (d : Str) : Str :=
  match lookupKV d u.rituals.night with
  | none =>
    List.intercalate (S "\n")
      [ S "🌙 Night (" ++ d ++ S ")",
        S "1) شنو ربحتي/داز مزيان اليوم؟ (win)",
        S "2) شنو كان صعيب؟ (hard)",
        S "3) شنو تعلمتي؟ (learn)",
        S "4) شنو أول حاجة غدا؟ (tomorrow)",
        [],
        S "Save example:",
        S "/night set win=Finished section hard=Stress learn=Take breaks tomorrow=Write outline" ]
  | some n =>
    List.intercalate (S "\n")
      [ S "🌙 Night (" ++ d ++ S ")",
        S "Win: " ++ orDash n.win,
        S "Hard: " ++ orDash n.hard,
        S "Learn: " ++ orDash n.learn,
        S "Tomorrow: " ++ orDash n.tomorrow ]

/-- The text of the first/second auto-plan work block: half the work target,
rounded to the nearest hour, at least 1. -/
def workBlockStr (t : BalanceTargets) : Str :=
  numToStr ((max 1 (jsRound (qDivNat t.work 2)) : ℤ) : ℚ)

/-- The five balance-derived texts plus up to three `Top3:` texts of
`/morning auto`. -/
def morningAutoTexts (t : BalanceTargets) (top3 : List Str) : List Str :=
  [ S "Thesis/Work block 1 (≈" ++ workBlockStr t ++ S "h)",
    S "Thesis/Work block 2 (≈" ++ workBlockStr t ++ S "h)",
    S "Health (≈" ++ numToStr t.health ++ S "h): walk/gym/stretch",
    S "Love/Connection (≈" ++ numToStr t.love ++ S "h): message/call quality time",
    S "Rest (≈" ++ numToStr t.rest ++ S "h): calm time, no phone" ] ++
  (top3.take 3).map (fun x => S "Top3: " ++ x)

/-- The task records `/morning auto` pushes, with their id/timestamp supply. -/
def morningAutoTasks (env : Env) (t : BalanceTargets) (top3 : List Str) : List PlanItem :=
  (morningAutoTexts t top3).mapIdx
    (fun i txt => { id := env.freshId i, text := txt, done := false, ts := env.nowAt i })

/-- The `/morning auto` handler (src/index.js:375-399): note it addresses
`todayStr()` directly, not `planDate`. -/
def morningAuto (env : Env) (u : User) : Str × User :=
  let d := env.today
  let t := u.balance.targets
  let m := (lookupKV d u.rituals.morning).getD {}
  let top3 := m.top3.getD []
  ( S "✅ Built today's plan from Balance + Morning. Send /plan to see it.",
    { u with plans := insertKV d (morningAutoTasks env t top3) u.plans } )

/-- The `/morning set` handler (src/index.js:401-415).  `u.rituals.morning[d]
||= {}` materialises the date entry even when no recognised key is present. -/
def morningSet (env : Env) (text : Str) (u : User) : Str × User :=
  let raw := jsTrim (text.drop 13)
  let kv := parseKeyValues raw
  let d := env.today
  let e0 : MorningEntry := (lookupKV d u.rituals.morning).getD {}
  let e1 :=
    match lookupKV (S "intention") kv with
    | some v => if ¬ v.isEmpty then { e0 with intention := some (jsReplaceAll v '_' ' ') } else e0
    | none => e0
  let e2 :=
    match lookupKV (S "top3") kv with
    | some v =>
      if ¬ v.isEmpty then
        { e1 with top3 := some (((splitCh ',' v).map jsTrim).filter (fun x => ¬ x.isEmpty)) }
      else e1
    | none => e1
  let e3 :=
    match lookupKV (S "stress") kv with
    | some v =>
      match jsNumber v with
      | some q => { e2 with stress := some q }
      | none => e2
    | none => e2
  let e4 :=
    match lookupKV (S "step") kv with
    | some v => if ¬ v.isEmpty then { e3 with step := some (jsReplaceAll v '_' ' ') } else e3
    | none => e3
  let u1 := { u with rituals := { u.rituals with morning := insertKV d e4 u.rituals.morning } }
  showMorning u1 d

/-- The `/night set` handler (src/index.js:418-429). -/
def nightSet (env : Env) (text : Str) (u : User) : Str × User :=
  let raw := jsTrim (text.drop 11)
  let kv := parseKeyValues raw
  let d := env.today
  let e0 : NightEntry := (lookupKV d u.rituals.night).getD {}
  let e1 :=
    match lookupKV (S "win") kv with
    | some v => if ¬ v.isEmpty then { e0 with win := some (jsReplaceAll v '_' ' ') } else e0
    | none => e0
  let e2 :=
    match lookupKV (S "hard") kv with
    | some v => if ¬ v.isEmpty then { e1 with hard := some (jsReplaceAll v '_' ' ') } else e1
    | none => e1
  let e3 :=
    match lookupKV (S "learn") kv with
    | some v => if ¬ v.isEmpty then { e2 with learn := some (jsReplaceAll v '_' ' ') } else e2
    | none => e2
  let e4 :=
    match lookupKV (S "tomorrow") kv with
    | some v => if ¬ v.isEmpty then { e3 with tomorrow := some (jsReplaceAll v '_' ' ') } else e3
    | none => e3
  let u1 := { u with rituals := { u.rituals with night := insertKV d e4 u.rituals.night } }
  (showNight u1 d, u1)

/- ================= Remaining command handlers ============================== -/

/-- `help()` (src/index.js:138-154). -/
def helpText : Str :=
  List.intercalate (S "\n")
    [ S "🤖 Commands:",
      S "/help",
      S "/profile | /profile set key=value",
      S "/checkin | /stress | /breath",
      S "/couple <situation>",
      S "/focus 45",
      S "/plan | /plan add <task> | /plan done <id> | /plan tomorrow",
      S "/note <text> | /notes",
      S "/todo <text> | /list",
      S "/morning | /morning set ...",
      S "/night | /night set ...",
      S "/balance | /balance set sleep=7 work=6 love=2 health=1 rest=1",
      S "/search <q> | /verify <claim>" ]

/-- The `/profile` display (src/index.js:289-292). -/
def profileShowText (u : User) : Str :=
  List.intercalate (S "\n") (u.profile.map (fun p => p.1 ++ S ": " ++ p.2))

/-- The `/profile set` handler (src/index.js:293-303).  The argument is
extracted with `text.replace("/profile set ", "")`: a case-sensitive
first-occurrence replacement on the original (non-lowercased) text. -/
def profileSet (text : Str) (u : User) : Str × User :=
  let rest := replaceFirst (S "/profile set ") [] text
  match rest.findIdx? (fun c => c = '=') with
  | none => (S "Use: /profile set key=value", u)
  | some idx =>
    let key := jsTrim (rest.take idx)
    let value := jsTrim (rest.drop (idx + 1))
    if key.isEmpty ∨ value.isEmpty then (S "Use: /profile set key=value", u)
    else (S "✅ Profile updated.", { u with profile := insertKV key value u.profile })

/-- The `/couple <situation>` reply (src/index.js:311-322). -/
def coupleReply (text : Str) : Str :=
  let s := jsTrim (text.drop 8)
  List.intercalate (S "\n")
    [ S "💙 Couple coach (3 رسائل):",
      S "1) هادئة: \"كنحس بالضغط شوية، وباغي نهضرو بهدوء باش نفهموك ونفهميني.\"",
      S "2) رومانسية: \"حسناء كنقدّرك بزاف، وبغيت نصلحوها بيناتنا بحب وهدوء.\"",
      S "3) واضحة: \"بغيت نتفقو على… باش ما يتعاودش نفس المشكل.\"",
      [],
      S "📌 Situation: " ++ s,
      S "بغيتك تجاوبني: شنو بغيتي منها بالضبط؟ وشنو الحاجة اللي كتحسها ناقصة دابا؟" ]

/-- The `/focus` reply (src/index.js:325-329): minutes from
`Number(text.split(" ")[1] || 45)`, falling back to 45 when not finite. -/
def focusReply (text : Str) : Str :=
  let m : Option ℚ :=
    match (splitCh ' ' text).get? 1 with
    | none => some 45
    | some w => if w.isEmpty then some 45 else jsNumber w
  let minutes := m.getD 45
  S "🎯 Focus " ++ numToStr minutes ++
    S "min: هدف واحد، notifications off، break 5min، ومن بعد راجع شنو درتي."

/-- The `/plan tomorrow` handler (src/index.js:333-337). -/
def planTomorrow (env : Env) (u : User) : Str × User :=
  let u1 := { u with planCursor := some env.tomorrow }
  showPlan u1 env.tomorrow

/-- The `/plan add` handler (src/index.js:338-345). -/
def planAdd (env : Env) (text : Str) (u : User) : Str × User :=
  let t := jsTrim (text.drop 10)
  if t.isEmpty then (S "Use: /plan add <task>", u)
  else
    let d := planDate env u
    let u1 := planMaterialize u d
    let l := planListGet u1 d
    let item : PlanItem := { id := env.freshId 0, text := t, done := false, ts := env.nowAt 0 }
    ( S "✅ Added to plan (" ++ d ++ S ").",
      { u1 with plans := insertKV d (l ++ [item]) u1.plans } )

/-- Mark the first plan item with the given id done (mutation of the `find`
result in the source). -/
def markDoneFirst (idv : Str) : List PlanItem → List PlanItem
  | [] => []
  | x :: r => if x.id = idv then { x with done := true } :: r else x :: markDoneFirst idv r

/-- The `/plan done <id>` handler (src/index.js:346-353).  Note the embedded
`planList` call materialises an empty plan entry for the addressed date even
when the id is not found. -/
def planDone (env : Env) (text : Str) (u : User) : Str × User :=
  let idv := jsTrim (text.drop 11)
  let d := planDate env u
  let u1 := planMaterialize u d
  let l := planListGet u1 d
  if (l.find? (fun x => x.id = idv)).isSome then
    (S "✅ Done.", { u1 with plans := insertKV d (markDoneFirst idv l) u1.plans })
  else (S "Not found. Use /plan to see ids.", u1)

/-- The `/note <text>` handler (src/index.js:356-362). -/
def noteAdd (env : Env) (text : Str) (u : User) : Str × User :=
  let t := jsTrim (text.drop 6)
  if t.isEmpty then (S "Use: /note <text>", u)
  else (S "📝 Saved.", { u with notes := u.notes ++ [{ id := env.freshId 0, text := t, ts := env.nowAt 0 }] })

/-- The `/notes` display (src/index.js:363). -/
def notesText (u : User) : Str :=
  let j := List.intercalate (S "\n") (u.notes.map (fun n => S "• " ++ n.id ++ S " " ++ n.text))
  if j.isEmpty then S "No notes." else j

/-- The `/todo <text>` handler (src/index.js:364-370). -/
def todoAdd (env : Env) (text : Str) (u : User) : Str × User :=
  let t := jsTrim (text.drop 6)
  if t.isEmpty then (S "Use: /todo <text>", u)
  else (S "✅ Todo added.", { u with todos := u.todos ++ [{ id := env.freshId 0, text := t, done := false, ts := env.nowAt 0 }] })

/-- The `/list` display (src/index.js:371). -/
def listText (u : User) : Str :=
  let j := List.intercalate (S "\n")
    (u.todos.map (fun t => (if t.done then S "✅" else S "⬜") ++ S " " ++ t.id ++ S " " ++ t.text))
  if j.isEmpty then S "No todos." else j

/-- The `/balance set` command body (src/index.js:433-438). -/
def balanceSetCmd (text : Str) (u : User) : Str × User :=
  let raw := jsTrim (text.drop 13)
  let r := setBalance u raw
  (r.1 ++ S "\n\n" ++ showBalanceText r.2, r.2)

/- ================= Command router (src/index.js:283-445) =================== -/

/-- `handleCommand` (src/index.js:283-445): sequential matching on the
lowercased text; `none` means "unrecognized" (the route replies
`Unknown. /help`).  Each branch returns the reply and the record state after
the handler (the source mutates the record in place).  The source binds
`low = text.toLowerCase()` once; here `jsToLower text` is written out at each
use, which is the same value. -/
def handleCommand (env : Env) (text : Str) (u : User) : Option (Str × User) :=
  if jsToLower text = S "/help" then some (helpText, u)
  else if jsToLower text = S "/profile" then some (profileShowText u, u)
  else if (S "/profile set ").isPrefixOf (jsToLower text) then some (profileSet text u)
  else if jsToLower text = S "/checkin" then
    some (S "كيف داير دابا (0–10)؟ شنو السبب؟ شنو محتاج دابا؟ خطوة صغيرة؟", u)
  else if jsToLower text = S "/stress" then
    some (S "⏸️ Pause 30s → تنفّس → رتب فكرة وحدة → دير خطوة 2 دقايق.", u)
  else if jsToLower text = S "/breath" then
    some (S "😮‍💨 4-4-6: شهيق 4، حبس 4، زفير 6 ×5 مرات.", u)
  else if (S "/couple ").isPrefixOf (jsToLower text) then some (coupleReply text, u)
  else if (S "/focus").isPrefixOf (jsToLower text) then some (focusReply text, u)
  else if jsToLower text = S "/plan" then some (showPlan u (planDate env u))
  else if jsToLower text = S "/plan tomorrow" then some (planTomorrow env u)
  else if (S "/plan add ").isPrefixOf (jsToLower text) then some (planAdd env text u)
  else if (S "/plan done ").isPrefixOf (jsToLower text) then some (planDone env text u)
  else if (S "/note ").isPrefixOf (jsToLower text) then some (noteAdd env text u)
  else if jsToLower text = S "/notes" then some (notesText u, u)
  else if (S "/todo ").isPrefixOf (jsToLower text) then some (todoAdd env text u)
  else if jsToLower text = S "/list" then some (listText u, u)
  else if jsToLower text = S "/morning" then some (showMorning u env.today)
  else if jsToLower text = S "/morning auto" then some (morningAuto env u)
  else if (S "/morning set ").isPrefixOf (jsToLower text) then some (morningSet env text u)
  else if jsToLower text = S "/night" then some (showNight u env.today, u)
  else if (S "/night set ").isPrefixOf (jsToLower text) then some (nightSet env text u)
  else if jsToLower text = S "/balance" then some (showBalanceText u, u)
  else if (S "/balance set ").isPrefixOf (jsToLower text) then some (balanceSetCmd text u)
  else if (S "/search ").isPrefixOf (jsToLower text) then
    some (fmtSearch (webSearch env (jsTrim (text.drop 8))), u)
  else if (S "/verify ").isPrefixOf (jsToLower text) then
    some (fmtSearch (webSearch env (jsTrim (S "verify " ++ text.drop 8))), u)
  else none

/- ================= Webhook route (src/index.js:450-485) ==================== -/

/-- `cap` (src/index.js:62): `a.slice(-n)`, the last `n` entries.  (JS
`slice(-0)` is `slice(0)`, the whole array, hence the guard.) -/
def cap (a : List α) (n : Nat) : List α :=
  if n = 0 then a else a.drop (a.length - n)

/-- The reply actually sent: `(r.output_text || "").trim() || "…"`. -/
def replyOf (modelText : Str) : Str :=
  let t := jsTrim modelText
  if t.isEmpty then S "…" else t

/-- The model input composed for the conversational path
(src/index.js:467-471). -/
def composeInput (u : User) (text : Str) : List ChatMsg :=
  { role := Role.system, content := systemPrompt u } :: u.memory ++
    [{ role := Role.user, content := text }]

/-- The reply-recording step (src/index.js:480): append the user and
assistant turns, then cap to the last 20 entries. -/
def recordReply (u : User) (text reply : Str) : User :=
  { u with memory := cap (u.memory ++
      [ { role := Role.user, content := text },
        { role := Role.assistant, content := reply } ]) 20 }

/-- The inbound webhook form: `Body` and `From` may be absent. -/
structure Inbound where
  body : Option Str := none
  sender : Option Str := none

/-- The `POST /whatsapp` handler (src/index.js:450-485): reply text plus the
in-memory store afterwards.  `getUser` is called inside `handleCommand` in
the source; hoisting it to the route is equivalent because the record is
mutated in place there. -/
def whatsappStep (env : Env) (db : DB) (inb : Inbound) : Str × DB :=
  let text := jsTrim (inb.body.getD [])
  let sender :=
    match inb.sender with
    | some s => if s.isEmpty then S "unknown" else s
    | none => S "unknown"
  if text.isEmpty then (S "Send a message 🙂", db)
  else if (S "/").isPrefixOf text then
    let g := getUser db sender
    match handleCommand env text g.1 with
    | some ru => (ru.1, insertKV sender (toRaw ru.2) g.2)
    | none => (S "Unknown. /help", g.2)
  else
    let g := getUser db sender
    let reply := replyOf env.modelText
    let u' := recordReply g.1 text reply
    (reply, insertKV sender (toRaw u') g.2)

/- ================= Test fixtures =========================================== -/

/-- A concrete request context for witnesses and counterexamples. -/
def env0 : Env :=
  { today := S "2026-10-12", tomorrow := S "2026-10-13",
    freshId := fun i => 'i' :: Nat.toDigits 10 i,
    nowAt := fun i => 't' :: Nat.toDigits 10 i,
    hasTavilyKey := false, tavily := fun _ => {}, modelText := S "hello" }

/-- `env0` with a provider credential and a provider that returns a
successful body with zero results. -/
def env1 : Env :=
  { env0 with hasTavilyKey := true, tavily := fun _ => { results := some [] } }

/-- A small fully-shaped sender record with one complete memory pair. -/
def u0 : User :=
  { prefs := { mode := S "assistant", lang := S "auto" },
    profile := [(S "name", S "Zak")],
    notes := [], todos := [], plans := [], planCursor := none, mood := [],
    rituals := { morning := [], night := [] },
    balance := { targets := defaultTargets },
    memory := [ { role := Role.user, content := S "hi" },
                { role := Role.assistant, content := S "yo" } ] }

/-- `u0` with the plan cursor moved to tomorrow and one task recorded there. -/
def u1 : User :=
  { u0 with planCursor := some (S "2026-10-13"),
            plans := [(S "2026-10-13",
              [{ id := S "old1", text := S "old task", done := false, ts := S "t" }])] }

/-- A one-user store holding `u0`. -/
def db0 : DB := [(S "u", toRaw u0)]

/- ================= Shared lemmas =========================================== -/

theorem lookupKV_insertKV_self (k : Str) (v : α) (l : List (Str × α)) :
    lookupKV k (insertKV k v l) = some v := by
  induction l with
  | nil => simp [insertKV, lookupKV]
  | cons p r ih =>
    by_cases h : p.1 = k
    · simp [insertKV, lookupKV, h]
    · simp [insertKV, lookupKV, h, ih]

theorem lookupKV_insertKV_ne (k k' : Str) (v : α) (l : List (Str × α))
    (h : k' ≠ k) : lookupKV k' (insertKV k v l) = lookupKV k' l := by
  induction l with
  | nil =>
    simp only [insertKV, lookupKV]
    rw [if_neg (fun hh => h hh.symm)]
  | cons p r ih =>
    obtain ⟨pk, pv⟩ := p
    by_cases hp : pk = k
    · subst hp
      simp only [insertKV, if_pos rfl, lookupKV]
      rw [if_neg (fun hh => h hh.symm), if_neg (fun hh => h hh.symm)]
    · simp only [insertKV, if_neg hp, lookupKV]
      split
      · rfl
      · exact ih

/-- `planMaterialize` does not change the value `planListGet` reads. -/
theorem planListGet_materialize (u : User) (d : Str) :
    planListGet (planMaterialize u d) d = planListGet u d := by
  unfold planMaterialize planListGet
  split
  · rfl
  · rename_i h
    simp [lookupKV_insertKV_self, h]

/- ================= C10 ===================================================== -/

/-- C10: for every sender id, including ids whose loaded record is missing
fields, after `getUser` the stored record has every structured field present
and non-null: prefs, profile, notes, todos, plans, the planCursor key, mood,
rituals.morning, rituals.night, balance.targets, and memory. -/
theorem getUser_record_fully_shaped (db : DB) (sender : Str) :
    ∃ e : RawUser, lookupKV sender (getUser db sender).2 = some e ∧
      e.prefs.isSome = true ∧ e.profile.isSome = true ∧ e.notes.isSome = true ∧
      e.todos.isSome = true ∧ e.plans.isSome = true ∧ e.planCursor.isSome = true ∧
      e.mood.isSome = true ∧
      (∃ rr, e.rituals = some rr ∧ rr.morning.isSome = true ∧ rr.night.isSome = true) ∧
      (∃ b, e.balance = some b ∧ b.targets.isSome = true) ∧
      e.memory.isSome = true := by
  refine ⟨ensureShape ((lookupKV sender db).getD DEFAULT_USER), ?_, ?_, ?_, ?_, ?_,
    ?_, ?_, ?_, ?_, ?_, ?_⟩
  · exact lookupKV_insertKV_self ..
  all_goals simp [ensureShape]

/- ================= C1 ====================================================== -/

/-- The memory window consists of complete user/assistant pairs in order. -/
def isPairedMem : List ChatMsg → Bool
  | [] => true
  | [_] => false
  | m1 :: m2 :: rest =>
    (m1.role == Role.user) && (m2.role == Role.assistant) && isPairedMem rest

theorem isPairedMem_append_pair (l : List ChatMsg) (a b : Str)
    (h : isPairedMem l = true) :
    isPairedMem (l ++ [⟨Role.user, a⟩, ⟨Role.assistant, b⟩]) = true := by
  induction l using isPairedMem.induct with
  | case1 => simp [isPairedMem]
  | case2 m => simp [isPairedMem] at h
  | case3 m1 m2 rest ih =>
    simp only [isPairedMem, Bool.and_eq_true, beq_iff_eq] at h
    simp only [List.cons_append, isPairedMem, Bool.and_eq_true, beq_iff_eq]
    exact ⟨⟨h.1.1, h.1.2⟩, ih h.2⟩

theorem isPairedMem_length_even (l : List ChatMsg) (h : isPairedMem l = true) :
    l.length % 2 = 0 := by
  induction l using isPairedMem.induct with
  | case1 => rfl
  | case2 m => simp [isPairedMem] at h
  | case3 m1 m2 rest ih =>
    simp only [isPairedMem, Bool.and_eq_true] at h
    have := ih h.2
    simp only [List.length_cons]
    omega

theorem isPairedMem_drop_two (l : List ChatMsg) (h : isPairedMem l = true) :
    isPairedMem (l.drop 2) = true := by
  match l, h with
  | [], _ => rfl
  | [m], h => simp [isPairedMem] at h
  | m1 :: m2 :: rest, h =>
    simp only [isPairedMem, Bool.and_eq_true] at h
    exact h.2

theorem isPairedMem_drop_even (j : Nat) (l : List ChatMsg)
    (h : isPairedMem l = true) : isPairedMem (l.drop (2 * j)) = true := by
  induction j generalizing l with
  | zero => simpa using h
  | succ n ih =>
    have h2 := isPairedMem_drop_two l h
    have h3 := ih (l.drop 2) h2
    rw [List.drop_drop] at h3
    have he : isPairedMem (List.drop (2 * n + 2) l) = true := by
      first
      | exact h3
      | rwa [Nat.add_comm] at h3
    rw [show 2 * (n + 1) = 2 * n + 2 from by ring]
    exact he

/-- C1: a completed non-command reply cycle appends the user turn then the
assistant turn and caps the window at 20 entries; if the window held complete
pairs before, afterwards it is at most 20 long, of even length, still consists
of complete pairs, and is a suffix of the appended sequence (oldest entries
evicted first). -/
theorem memory_window_reply_cycle_invariant (u : User) (text reply : Str)
    (h : isPairedMem u.memory = true) :
    (recordReply u text reply).memory.length ≤ 20 ∧
    Even (recordReply u text reply).memory.length ∧
    isPairedMem (recordReply u text reply).memory = true ∧
    (recordReply u text reply).memory <:+
      (u.memory ++ [⟨Role.user, text⟩, ⟨Role.assistant, reply⟩]) := by
  have hlen := isPairedMem_length_even u.memory h
  set L : List ChatMsg :=
    u.memory ++ [⟨Role.user, text⟩, ⟨Role.assistant, reply⟩] with hL
  have hLpair : isPairedMem L = true := isPairedMem_append_pair u.memory text reply h
  have hmem : (recordReply u text reply).memory = L.drop (L.length - 20) := by
    simp [recordReply, cap, hL]
  have hLlen : L.length = u.memory.length + 2 := by simp [hL]
  have hdrop_even : ∃ j, L.length - 20 = 2 * j := by
    refine ⟨(L.length - 20) / 2, ?_⟩
    omega
  obtain ⟨j, hj⟩ := hdrop_even
  have hpair' : isPairedMem (recordReply u text reply).memory = true := by
    rw [hmem, hj]
    exact isPairedMem_drop_even j L hLpair
  refine ⟨?_, ?_, hpair', ?_⟩
  · rw [hmem, List.length_drop]
    omega
  · rw [Nat.even_iff]
    exact isPairedMem_length_even _ hpair'
  · rw [hmem]
    exact List.drop_suffix _ _

/-- C1 witness: the invariant instantiated at a concrete record holding one
complete pair. -/
theorem memory_window_reply_cycle_invariant_instance :
    (recordReply u0 (S "question") (S "answer")).memory.length ≤ 20 ∧
    Even (recordReply u0 (S "question") (S "answer")).memory.length ∧
    isPairedMem (recordReply u0 (S "question") (S "answer")).memory = true ∧
    (recordReply u0 (S "question") (S "answer")).memory <:+
      (u0.memory ++ [⟨Role.user, S "question"⟩, ⟨Role.assistant, S "answer"⟩]) :=
  memory_window_reply_cycle_invariant u0 (S "question") (S "answer") (by decide)

/- ================= C2 ====================================================== -/

theorem planMaterialize_memory (u : User) (d : Str) :
    (planMaterialize u d).memory = u.memory := by
  unfold planMaterialize
  split <;> rfl

theorem showPlan_snd_memory (u : User) (d : Str) :
    (showPlan u d).2.memory = u.memory := planMaterialize_memory u d

theorem showBalanceSchedule_snd_memory (u : User) (d : Str) :
    (showBalanceSchedule u d).2.memory = u.memory := planMaterialize_memory u d

theorem showMorning_snd_memory (u : User) (d : Str) :
    (showMorning u d).2.memory = u.memory := showBalanceSchedule_snd_memory u d

theorem profileSet_snd_memory (text : Str) (u : User) :
    (profileSet text u).2.memory = u.memory := by
  unfold profileSet
  dsimp only
  split
  · rfl
  · split <;> rfl

theorem planTomorrow_snd_memory (env : Env) (u : User) :
    (planTomorrow env u).2.memory = u.memory :=
  showPlan_snd_memory _ _

theorem planAdd_snd_memory (env : Env) (text : Str) (u : User) :
    (planAdd env text u).2.memory = u.memory := by
  unfold planAdd
  dsimp only
  split
  · rfl
  · exact planMaterialize_memory u _

theorem planDone_snd_memory (env : Env) (text : Str) (u : User) :
    (planDone env text u).2.memory = u.memory := by
  unfold planDone
  dsimp only
  split
  · exact planMaterialize_memory u _
  · exact planMaterialize_memory u _

theorem noteAdd_snd_memory (env : Env) (text : Str) (u : User) :
    (noteAdd env text u).2.memory = u.memory := by
  unfold noteAdd
  dsimp only
  split <;> rfl

theorem todoAdd_snd_memory (env : Env) (text : Str) (u : User) :
    (todoAdd env text u).2.memory = u.memory := by
  unfold todoAdd
  dsimp only
  split <;> rfl

theorem morningSet_snd_memory (env : Env) (text : Str) (u : User) :
    (morningSet env text u).2.memory = u.memory :=
  showMorning_snd_memory _ _

/-- C2 (amended): the router recognizes no reset command — `/reset` falls
through every branch and returns null — and no command handler modifies the
sender's memory sequence, so no recognized command clears it either. -/
theorem reset_absent_memory_frame :
    (∀ (env : Env) (u : User), handleCommand env (S "/reset") u = none) ∧
    (∀ (env : Env) (t : Str) (u : User) (r : Str) (u' : User),
      handleCommand env t u = some (r, u') → u'.memory = u.memory) := by
  constructor
  · intro env u
    rfl
  · intro env t u r u' h
    unfold handleCommand at h
    rcases Decidable.em (jsToLower t = S "/help") with c1 | c1
    · rw [if_pos c1] at h
      have h2 : _ = u' := congrArg Prod.snd (Option.some.inj h)
      subst h2
      first
      | rfl
      | apply profileSet_snd_memory
      | apply showPlan_snd_memory
      | apply planTomorrow_snd_memory
      | apply planAdd_snd_memory
      | apply planDone_snd_memory
      | apply noteAdd_snd_memory
      | apply todoAdd_snd_memory
      | apply showMorning_snd_memory
      | apply morningSet_snd_memory
    rw [if_neg c1] at h
    rcases Decidable.em (jsToLower t = S "/profile") with c2 | c2
    · rw [if_pos c2] at h
      have h2 : _ = u' := congrArg Prod.snd (Option.some.inj h)
      subst h2
      first
      | rfl
      | apply profileSet_snd_memory
      | apply showPlan_snd_memory
      | apply planTomorrow_snd_memory
      | apply planAdd_snd_memory
      | apply planDone_snd_memory
      | apply noteAdd_snd_memory
      | apply todoAdd_snd_memory
      | apply showMorning_snd_memory
      | apply morningSet_snd_memory
    rw [if_neg c2] at h
    rcases Decidable.em (List.isPrefixOf (S "/profile set ") (jsToLower t) = true) with c3 | c3
    · rw [if_pos c3] at h
      have h2 : _ = u' := congrArg Prod.snd (Option.some.inj h)
      subst h2
      first
      | rfl
      | apply profileSet_snd_memory
      | apply showPlan_snd_memory
      | apply planTomorrow_snd_memory
      | apply planAdd_snd_memory
      | apply planDone_snd_memory
      | apply noteAdd_snd_memory
      | apply todoAdd_snd_memory
      | apply showMorning_snd_memory
      | apply morningSet_snd_memory
    rw [if_neg c3] at h
    rcases Decidable.em (jsToLower t = S "/checkin") with c4 | c4
    · rw [if_pos c4] at h
      have h2 : _ = u' := congrArg Prod.snd (Option.some.inj h)
      subst h2
      first
      | rfl
      | apply profileSet_snd_memory
      | apply showPlan_snd_memory
      | apply planTomorrow_snd_memory
      | apply planAdd_snd_memory
      | apply planDone_snd_memory
      | apply noteAdd_snd_memory
      | apply todoAdd_snd_memory
      | apply showMorning_snd_memory
      | apply morningSet_snd_memory
    rw [if_neg c4] at h
    rcases Decidable.em (jsToLower t = S "/stress") with c5 | c5
    · rw [if_pos c5] at h
      have h2 : _ = u' := congrArg Prod.snd (Option.some.inj h)
      subst h2
      first
      | rfl
      | apply profileSet_snd_memory
      | apply showPlan_snd_memory
      | apply planTomorrow_snd_memory
      | apply planAdd_snd_memory
      | apply planDone_snd_memory
      | apply noteAdd_snd_memory
      | apply todoAdd_snd_memory
      | apply showMorning_snd_memory
      | apply morningSet_snd_memory
    rw [if_neg c5] at h
    rcases Decidable.em (jsToLower t = S "/breath") with c6 | c6
    · rw [if_pos c6] at h
      have h2 : _ = u' := congrArg Prod.snd (Option.some.inj h)
      subst h2
      first
      | rfl
      | apply profileSet_snd_memory
      | apply showPlan_snd_memory
      | apply planTomorrow_snd_memory
      | apply planAdd_snd_memory
      | apply planDone_snd_memory
      | apply noteAdd_snd_memory
      | apply todoAdd_snd_memory
      | apply showMorning_snd_memory
      | apply morningSet_snd_memory
    rw [if_neg c6] at h
    rcases Decidable.em (List.isPrefixOf (S "/couple ") (jsToLower t) = true) with c7 | c7
    · rw [if_pos c7] at h
      have h2 : _ = u' := congrArg Prod.snd (Option.some.inj h)
      subst h2
      first
      | rfl
      | apply profileSet_snd_memory
      | apply showPlan_snd_memory
      | apply planTomorrow_snd_memory
      | apply planAdd_snd_memory
      | apply planDone_snd_memory
      | apply noteAdd_snd_memory
      | apply todoAdd_snd_memory
      | apply showMorning_snd_memory
      | apply morningSet_snd_memory
    rw [if_neg c7] at h
    rcases Decidable.em (List.isPrefixOf (S "/focus") (jsToLower t) = true) with c8 | c8
    · rw [if_pos c8] at h
      have h2 : _ = u' := congrArg Prod.snd (Option.some.inj h)
      subst h2
      first
      | rfl
      | apply profileSet_snd_memory
      | apply showPlan_snd_memory
      | apply planTomorrow_snd_memory
      | apply planAdd_snd_memory
      | apply planDone_snd_memory
      | apply noteAdd_snd_memory
      | apply todoAdd_snd_memory
      | apply showMorning_snd_memory
      | apply morningSet_snd_memory
    rw [if_neg c8] at h
    rcases Decidable.em (jsToLower t = S "/plan") with c9 | c9
    · rw [if_pos c9] at h
      have h2 : _ = u' := congrArg Prod.snd (Option.some.inj h)
      subst h2
      first
      | rfl
      | apply profileSet_snd_memory
      | apply showPlan_snd_memory
      | apply planTomorrow_snd_memory
      | apply planAdd_snd_memory
      | apply planDone_snd_memory
      | apply noteAdd_snd_memory
      | apply todoAdd_snd_memory
      | apply showMorning_snd_memory
      | apply morningSet_snd_memory
    rw [if_neg c9] at h
    rcases Decidable.em (jsToLower t = S "/plan tomorrow") with c10 | c10
    · rw [if_pos c10] at h
      have h2 : _ = u' := congrArg Prod.snd (Option.some.inj h)
      subst h2
      first
      | rfl
      | apply profileSet_snd_memory
      | apply showPlan_snd_memory
      | apply planTomorrow_snd_memory
      | apply planAdd_snd_memory
      | apply planDone_snd_memory
      | apply noteAdd_snd_memory
      | apply todoAdd_snd_memory
      | apply showMorning_snd_memory
      | apply morningSet_snd_memory
    rw [if_neg c10] at h
    rcases Decidable.em (List.isPrefixOf (S "/plan add ") (jsToLower t) = true) with c11 | c11
    · rw [if_pos c11] at h
      have h2 : _ = u' := congrArg Prod.snd (Option.some.inj h)
      subst h2
      first
      | rfl
      | apply profileSet_snd_memory
      | apply showPlan_snd_memory
      | apply planTomorrow_snd_memory
      | apply planAdd_snd_memory
      | apply planDone_snd_memory
      | apply noteAdd_snd_memory
      | apply todoAdd_snd_memory
      | apply showMorning_snd_memory
      | apply morningSet_snd_memory
    rw [if_neg c11] at h
    rcases Decidable.em (List.isPrefixOf (S "/plan done ") (jsToLower t) = true) with c12 | c12
    · rw [if_pos c12] at h
      have h2 : _ = u' := congrArg Prod.snd (Option.some.inj h)
      subst h2
      first
      | rfl
      | apply profileSet_snd_memory
      | apply showPlan_snd_memory
      | apply planTomorrow_snd_memory
      | apply planAdd_snd_memory
      | apply planDone_snd_memory
      | apply noteAdd_snd_memory
      | apply todoAdd_snd_memory
      | apply showMorning_snd_memory
      | apply morningSet_snd_memory
    rw [if_neg c12] at h
    rcases Decidable.em (List.isPrefixOf (S "/note ") (jsToLower t) = true) with c13 | c13
    · rw [if_pos c13] at h
      have h2 : _ = u' := congrArg Prod.snd (Option.some.inj h)
      subst h2
      first
      | rfl
      | apply profileSet_snd_memory
      | apply showPlan_snd_memory
      | apply planTomorrow_snd_memory
      | apply planAdd_snd_memory
      | apply planDone_snd_memory
      | apply noteAdd_snd_memory
      | apply todoAdd_snd_memory
      | apply showMorning_snd_memory
      | apply morningSet_snd_memory
    rw [if_neg c13] at h
    rcases Decidable.em (jsToLower t = S "/notes") with c14 | c14
    · rw [if_pos c14] at h
      have h2 : _ = u' := congrArg Prod.snd (Option.some.inj h)
      subst h2
      first
      | rfl
      | apply profileSet_snd_memory
      | apply showPlan_snd_memory
      | apply planTomorrow_snd_memory
      | apply planAdd_snd_memory
      | apply planDone_snd_memory
      | apply noteAdd_snd_memory
      | apply todoAdd_snd_memory
      | apply showMorning_snd_memory
      | apply morningSet_snd_memory
    rw [if_neg c14] at h
    rcases Decidable.em (List.isPrefixOf (S "/todo ") (jsToLower t) = true) with c15 | c15
    · rw [if_pos c15] at h
      have h2 : _ = u' := congrArg Prod.snd (Option.some.inj h)
      subst h2
      first
      | rfl
      | apply profileSet_snd_memory
      | apply showPlan_snd_memory
      | apply planTomorrow_snd_memory
      | apply planAdd_snd_memory
      | apply planDone_snd_memory
      | apply noteAdd_snd_memory
      | apply todoAdd_snd_memory
      | apply showMorning_snd_memory
      | apply morningSet_snd_memory
    rw [if_neg c15] at h
    rcases Decidable.em (jsToLower t = S "/list") with c16 | c16
    · rw [if_pos c16] at h
      have h2 : _ = u' := congrArg Prod.snd (Option.some.inj h)
      subst h2
      first
      | rfl
      | apply profileSet_snd_memory
      | apply showPlan_snd_memory
      | apply planTomorrow_snd_memory
      | apply planAdd_snd_memory
      | apply planDone_snd_memory
      | apply noteAdd_snd_memory
      | apply todoAdd_snd_memory
      | apply showMorning_snd_memory
      | apply morningSet_snd_memory
    rw [if_neg c16] at h
    rcases Decidable.em (jsToLower t = S "/morning") with c17 | c17
    · rw [if_pos c17] at h
      have h2 : _ = u' := congrArg Prod.snd (Option.some.inj h)
      subst h2
      first
      | rfl
      | apply profileSet_snd_memory
      | apply showPlan_snd_memory
      | apply planTomorrow_snd_memory
      | apply planAdd_snd_memory
      | apply planDone_snd_memory
      | apply noteAdd_snd_memory
      | apply todoAdd_snd_memory
      | apply showMorning_snd_memory
      | apply morningSet_snd_memory
    rw [if_neg c17] at h
    rcases Decidable.em (jsToLower t = S "/morning auto") with c18 | c18
    · rw [if_pos c18] at h
      have h2 : _ = u' := congrArg Prod.snd (Option.some.inj h)
      subst h2
      first
      | rfl
      | apply profileSet_snd_memory
      | apply showPlan_snd_memory
      | apply planTomorrow_snd_memory
      | apply planAdd_snd_memory
      | apply planDone_snd_memory
      | apply noteAdd_snd_memory
      | apply todoAdd_snd_memory
      | apply showMorning_snd_memory
      | apply morningSet_snd_memory
    rw [if_neg c18] at h
    rcases Decidable.em (List.isPrefixOf (S "/morning set ") (jsToLower t) = true) with c19 | c19
    · rw [if_pos c19] at h
      have h2 : _ = u' := congrArg Prod.snd (Option.some.inj h)
      subst h2
      first
      | rfl
      | apply profileSet_snd_memory
      | apply showPlan_snd_memory
      | apply planTomorrow_snd_memory
      | apply planAdd_snd_memory
      | apply planDone_snd_memory
      | apply noteAdd_snd_memory
      | apply todoAdd_snd_memory
      | apply showMorning_snd_memory
      | apply morningSet_snd_memory
    rw [if_neg c19] at h
    rcases Decidable.em (jsToLower t = S "/night") with c20 | c20
    · rw [if_pos c20] at h
      have h2 : _ = u' := congrArg Prod.snd (Option.some.inj h)
      subst h2
      first
      | rfl
      | apply profileSet_snd_memory
      | apply showPlan_snd_memory
      | apply planTomorrow_snd_memory
      | apply planAdd_snd_memory
      | apply planDone_snd_memory
      | apply noteAdd_snd_memory
      | apply todoAdd_snd_memory
      | apply showMorning_snd_memory
      | apply morningSet_snd_memory
    rw [if_neg c20] at h
    rcases Decidable.em (List.isPrefixOf (S "/night set ") (jsToLower t) = true) with c21 | c21
    · rw [if_pos c21] at h
      have h2 : _ = u' := congrArg Prod.snd (Option.some.inj h)
      subst h2
      first
      | rfl
      | apply profileSet_snd_memory
      | apply showPlan_snd_memory
      | apply planTomorrow_snd_memory
      | apply planAdd_snd_memory
      | apply planDone_snd_memory
      | apply noteAdd_snd_memory
      | apply todoAdd_snd_memory
      | apply showMorning_snd_memory
      | apply morningSet_snd_memory
    rw [if_neg c21] at h
    rcases Decidable.em (jsToLower t = S "/balance") with c22 | c22
    · rw [if_pos c22] at h
      have h2 : _ = u' := congrArg Prod.snd (Option.some.inj h)
      subst h2
      first
      | rfl
      | apply profileSet_snd_memory
      | apply showPlan_snd_memory
      | apply planTomorrow_snd_memory
      | apply planAdd_snd_memory
      | apply planDone_snd_memory
      | apply noteAdd_snd_memory
      | apply todoAdd_snd_memory
      | apply showMorning_snd_memory
      | apply morningSet_snd_memory
    rw [if_neg c22] at h
    rcases Decidable.em (List.isPrefixOf (S "/balance set ") (jsToLower t) = true) with c23 | c23
    · rw [if_pos c23] at h
      have h2 : _ = u' := congrArg Prod.snd (Option.some.inj h)
      subst h2
      first
      | rfl
      | apply profileSet_snd_memory
      | apply showPlan_snd_memory
      | apply planTomorrow_snd_memory
      | apply planAdd_snd_memory
      | apply planDone_snd_memory
      | apply noteAdd_snd_memory
      | apply todoAdd_snd_memory
      | apply showMorning_snd_memory
      | apply morningSet_snd_memory
    rw [if_neg c23] at h
    rcases Decidable.em (List.isPrefixOf (S "/search ") (jsToLower t) = true) with c24 | c24
    · rw [if_pos c24] at h
      have h2 : _ = u' := congrArg Prod.snd (Option.some.inj h)
      subst h2
      first
      | rfl
      | apply profileSet_snd_memory
      | apply showPlan_snd_memory
      | apply planTomorrow_snd_memory
      | apply planAdd_snd_memory
      | apply planDone_snd_memory
      | apply noteAdd_snd_memory
      | apply todoAdd_snd_memory
      | apply showMorning_snd_memory
      | apply morningSet_snd_memory
    rw [if_neg c24] at h
    rcases Decidable.em (List.isPrefixOf (S "/verify ") (jsToLower t) = true) with c25 | c25
    · rw [if_pos c25] at h
      have h2 : _ = u' := congrArg Prod.snd (Option.some.inj h)
      subst h2
      first
      | rfl
      | apply profileSet_snd_memory
      | apply showPlan_snd_memory
      | apply planTomorrow_snd_memory
      | apply planAdd_snd_memory
      | apply planDone_snd_memory
      | apply noteAdd_snd_memory
      | apply todoAdd_snd_memory
      | apply showMorning_snd_memory
      | apply morningSet_snd_memory
    rw [if_neg c25] at h
    exact absurd h (by simp)

/-- C2 witness: a concrete recognized, state-mutating command (`/note hi`)
leaves the memory untouched. -/
theorem reset_absent_memory_frame_instance :
    ({ u0 with notes := [{ id := S "i0", text := S "hi", ts := S "t0" }] } : User).memory
      = u0.memory :=
  reset_absent_memory_frame.2 env0 (S "/note hi") u0 (S "📝 Saved.")
    { u0 with notes := [{ id := S "i0", text := S "hi", ts := S "t0" }] } (by decide)

/-- C2 counterexample: there is no reset command — `/reset` is unrecognized
(the route replies `Unknown. /help`) and the nonempty memory is not cleared. -/
theorem reset_command_missing_cex :
    handleCommand env0 (S "/reset") u0 = none ∧
    (whatsappStep env0 db0 { body := some (S "/reset"), sender := some (S "u") }).1 =
      S "Unknown. /help" ∧
    u0.memory ≠ [] := by decide

/- ================= C3 ====================================================== -/

/-- The keys of the `setBalance` loop. -/
def balanceKeys : List Str := [S "sleep", S "work", S "love", S "health", S "rest"]

/-- Target field addressed by one of the five balance keys. -/
def getTarget (t : BalanceTargets) (k : Str) : ℚ :=
  if k = S "sleep" then t.sleep
  else if k = S "work" then t.work
  else if k = S "love" then t.love
  else if k = S "health" then t.health
  else if k = S "rest" then t.rest
  else 0

theorem getTarget_sleep (t : BalanceTargets) : getTarget t (S "sleep") = t.sleep := by
  unfold getTarget
  rw [if_pos rfl]

theorem getTarget_work (t : BalanceTargets) : getTarget t (S "work") = t.work := by
  unfold getTarget
  rw [if_neg (by decide), if_pos rfl]

theorem getTarget_love (t : BalanceTargets) : getTarget t (S "love") = t.love := by
  unfold getTarget
  rw [if_neg (by decide), if_neg (by decide), if_pos rfl]

theorem getTarget_health (t : BalanceTargets) : getTarget t (S "health") = t.health := by
  unfold getTarget
  rw [if_neg (by decide), if_neg (by decide), if_neg (by decide), if_pos rfl]

theorem getTarget_rest (t : BalanceTargets) : getTarget t (S "rest") = t.rest := by
  unfold getTarget
  rw [if_neg (by decide), if_neg (by decide), if_neg (by decide), if_neg (by decide),
    if_pos rfl]

theorem balanceFieldUpd_keep_none (cur : ℚ) : (balanceFieldUpd cur none).1 = cur := rfl

theorem balanceFieldUpd_keep_nan (cur : ℚ) (s : Str) (h : jsNumber s = none) :
    (balanceFieldUpd cur (some s)).1 = cur := by
  simp [balanceFieldUpd, h]

theorem balanceFieldUpd_keep_range (cur : ℚ) (s : Str) (q : ℚ)
    (h : jsNumber s = some q) (hq : q < 0 ∨ 24 < q) :
    (balanceFieldUpd cur (some s)).1 = cur := by
  simp only [balanceFieldUpd, h]
  rw [if_pos hq]

theorem balanceFieldUpd_set (cur : ℚ) (s : Str) (q : ℚ)
    (h : jsNumber s = some q) (h0 : 0 ≤ q) (h24 : q ≤ 24) :
    (balanceFieldUpd cur (some s)).1 = q := by
  simp only [balanceFieldUpd, h]
  rw [if_neg (by rintro (hc | hc) <;> linarith)]

theorem setBalance_sleep_proj (u : User) (raw : Str) :
    (setBalance u raw).2.balance.targets.sleep =
      (balanceFieldUpd u.balance.targets.sleep (lookupKV (S "sleep") (parseKeyValues raw))).1 := rfl

theorem setBalance_work_proj (u : User) (raw : Str) :
    (setBalance u raw).2.balance.targets.work =
      (balanceFieldUpd u.balance.targets.work (lookupKV (S "work") (parseKeyValues raw))).1 := rfl

theorem setBalance_love_proj (u : User) (raw : Str) :
    (setBalance u raw).2.balance.targets.love =
      (balanceFieldUpd u.balance.targets.love (lookupKV (S "love") (parseKeyValues raw))).1 := rfl

theorem setBalance_health_proj (u : User) (raw : Str) :
    (setBalance u raw).2.balance.targets.health =
      (balanceFieldUpd u.balance.targets.health (lookupKV (S "health") (parseKeyValues raw))).1 := rfl

theorem setBalance_rest_proj (u : User) (raw : Str) :
    (setBalance u raw).2.balance.targets.rest =
      (balanceFieldUpd u.balance.targets.rest (lookupKV (S "rest") (parseKeyValues raw))).1 := rfl

/-- C3: for each balance key, a missing, non-numeric or out-of-[0,24] value
leaves that target field unchanged, while a valid in-range value is applied
to it (the five fields are handled independently in one `/balance set`). -/
theorem setBalance_invalid_ignored_valid_applied (u : User) (raw : Str) (k : Str)
    (hk : k ∈ balanceKeys) :
    (lookupKV k (parseKeyValues raw) = none →
      getTarget (setBalance u raw).2.balance.targets k = getTarget u.balance.targets k) ∧
    (∀ s, lookupKV k (parseKeyValues raw) = some s → jsNumber s = none →
      getTarget (setBalance u raw).2.balance.targets k = getTarget u.balance.targets k) ∧
    (∀ s q, lookupKV k (parseKeyValues raw) = some s → jsNumber s = some q →
      (q < 0 ∨ 24 < q) →
      getTarget (setBalance u raw).2.balance.targets k = getTarget u.balance.targets k) ∧
    (∀ s q, lookupKV k (parseKeyValues raw) = some s → jsNumber s = some q →
      0 ≤ q → q ≤ 24 →
      getTarget (setBalance u raw).2.balance.targets k = q) := by
  fin_cases hk
  · refine ⟨fun hnone => ?_, fun s hs hnan => ?_, fun s q hs hq hrange => ?_,
      fun s q hs hq h0 h24 => ?_⟩
    · rw [getTarget_sleep, getTarget_sleep, setBalance_sleep_proj, hnone, balanceFieldUpd_keep_none]
    · rw [getTarget_sleep, getTarget_sleep, setBalance_sleep_proj, hs]
      exact balanceFieldUpd_keep_nan _ _ hnan
    · rw [getTarget_sleep, getTarget_sleep, setBalance_sleep_proj, hs]
      exact balanceFieldUpd_keep_range _ _ _ hq hrange
    · rw [getTarget_sleep, setBalance_sleep_proj, hs]
      exact balanceFieldUpd_set _ _ _ hq h0 h24
  · refine ⟨fun hnone => ?_, fun s hs hnan => ?_, fun s q hs hq hrange => ?_,
      fun s q hs hq h0 h24 => ?_⟩
    · rw [getTarget_work, getTarget_work, setBalance_work_proj, hnone, balanceFieldUpd_keep_none]
    · rw [getTarget_work, getTarget_work, setBalance_work_proj, hs]
      exact balanceFieldUpd_keep_nan _ _ hnan
    · rw [getTarget_work, getTarget_work, setBalance_work_proj, hs]
      exact balanceFieldUpd_keep_range _ _ _ hq hrange
    · rw [getTarget_work, setBalance_work_proj, hs]
      exact balanceFieldUpd_set _ _ _ hq h0 h24
  · refine ⟨fun hnone => ?_, fun s hs hnan => ?_, fun s q hs hq hrange => ?_,
      fun s q hs hq h0 h24 => ?_⟩
    · rw [getTarget_love, getTarget_love, setBalance_love_proj, hnone, balanceFieldUpd_keep_none]
    · rw [getTarget_love, getTarget_love, setBalance_love_proj, hs]
      exact balanceFieldUpd_keep_nan _ _ hnan
    · rw [getTarget_love, getTarget_love, setBalance_love_proj, hs]
      exact balanceFieldUpd_keep_range _ _ _ hq hrange
    · rw [getTarget_love, setBalance_love_proj, hs]
      exact balanceFieldUpd_set _ _ _ hq h0 h24
  · refine ⟨fun hnone => ?_, fun s hs hnan => ?_, fun s q hs hq hrange => ?_,
      fun s q hs hq h0 h24 => ?_⟩
    · rw [getTarget_health, getTarget_health, setBalance_health_proj, hnone, balanceFieldUpd_keep_none]
    · rw [getTarget_health, getTarget_health, setBalance_health_proj, hs]
      exact balanceFieldUpd_keep_nan _ _ hnan
    · rw [getTarget_health, getTarget_health, setBalance_health_proj, hs]
      exact balanceFieldUpd_keep_range _ _ _ hq hrange
    · rw [getTarget_health, setBalance_health_proj, hs]
      exact balanceFieldUpd_set _ _ _ hq h0 h24
  · refine ⟨fun hnone => ?_, fun s hs hnan => ?_, fun s q hs hq hrange => ?_,
      fun s q hs hq h0 h24 => ?_⟩
    · rw [getTarget_rest, getTarget_rest, setBalance_rest_proj, hnone, balanceFieldUpd_keep_none]
    · rw [getTarget_rest, getTarget_rest, setBalance_rest_proj, hs]
      exact balanceFieldUpd_keep_nan _ _ hnan
    · rw [getTarget_rest, getTarget_rest, setBalance_rest_proj, hs]
      exact balanceFieldUpd_keep_range _ _ _ hq hrange
    · rw [getTarget_rest, setBalance_rest_proj, hs]
      exact balanceFieldUpd_set _ _ _ hq h0 h24

/-- C3 witness: `/balance set sleep=30 work=5` keeps sleep at its previous
value 7 (30 is out of [0,24]) and still applies work=5. -/
theorem setBalance_invalid_ignored_valid_applied_instance :
    getTarget (setBalance u0 (S "sleep=30 work=5")).2.balance.targets (S "sleep") = 7 ∧
    getTarget (setBalance u0 (S "sleep=30 work=5")).2.balance.targets (S "work") = 5 := by
  constructor
  · have h := (setBalance_invalid_ignored_valid_applied u0 (S "sleep=30 work=5")
      (S "sleep") (by decide)).2.2.1 (S "30") 30 (by decide) (by decide) (by norm_num)
    rw [h, getTarget_sleep]
    decide
  · exact (setBalance_invalid_ignored_valid_applied u0 (S "sleep=30 work=5")
      (S "work") (by decide)).2.2.2 (S "5") 5 (by decide) (by decide)
      (by norm_num) (by norm_num)

/- ================= C4 (spec-modelled) ====================================== -/

/-- Modelled from the spec: the Intent Gate's two classification outcomes.
The intent-gated variant of the webhook pipeline is part of this repository
but is not among the files under src/ (src/index.js is the variant without
the gate; the spec's line counts cover both variants), so the gate is
modelled from spec §4.2-§4.3. -/
inductive Intent
  | REALTIME
  | GENERAL
deriving DecidableEq, Repr

/-- Modelled from the spec: `classify(message)` issues one classification
call and matches the returned text case-sensitively against the literal
token `REALTIME`; any other returned text means `GENERAL`. -/
def classify (modelOutput : Str) : Intent :=
  if modelOutput = S "REALTIME" then Intent.REALTIME else Intent.GENERAL

/-- Modelled from the spec: the gated composition.  On `GENERAL` the Search
Augmenter is not invoked (first component `false`) and the system instruction
is unchanged; on `REALTIME` the search context block is appended as a
trailing paragraph. -/
def gatedCompose (base : Str) (intent : Intent) (ctx : Str) : Bool × Str :=
  match intent with
  | Intent.GENERAL => (false, base)
  | Intent.REALTIME => (true, base ++ S "\n\n" ++ ctx)

/-- C4: the classification decides between REALTIME and GENERAL by
case-sensitive exact match against the literal `REALTIME` (anything else
means GENERAL), and when the result is GENERAL the Search Augmenter is never
invoked and no context block is appended to the system instruction. -/
theorem intent_gate_exact_match_general_no_search :
    classify (S "REALTIME") = Intent.REALTIME ∧
    (∀ out : Str, out ≠ S "REALTIME" → classify out = Intent.GENERAL) ∧
    (∀ out base ctx : Str, classify out = Intent.GENERAL →
      gatedCompose base (classify out) ctx = (false, base)) := by
  refine ⟨rfl, fun out h => ?_, fun out base ctx h => ?_⟩
  · unfold classify
    rw [if_neg h]
  · rw [h]
    rfl

/-- C4 witness: the lowercase output `realtime` is not an exact match, so it
is treated as GENERAL: no search invocation, system instruction unchanged. -/
theorem intent_gate_exact_match_general_no_search_instance :
    classify (S "realtime") = Intent.GENERAL ∧
    gatedCompose (S "base") (classify (S "realtime")) (S "ctx") = (false, S "base") := by
  constructor
  · exact intent_gate_exact_match_general_no_search.2.1 (S "realtime") (by decide)
  · exact intent_gate_exact_match_general_no_search.2.2 (S "realtime") (S "base") (S "ctx")
      (intent_gate_exact_match_general_no_search.2.1 (S "realtime") (by decide))

/- ================= C5 ====================================================== -/

/-- C5 (amended): each degraded case returns a fixed nonempty marker and the
flow does not fail — a missing credential yields `❌ Missing TAVILY_API_KEY`,
while a provider body without results (an HTTP-error body or a success with
zero results) yields `ما لقيتش نتائج.` — but the marker is NOT the same text
in all three cases: the credential marker differs from the no-results
marker. -/
theorem search_degraded_fixed_markers :
    (∀ (env : Env) (q : Str), env.hasTavilyKey = false →
      fmtSearch (webSearch env q) = S "❌ Missing TAVILY_API_KEY") ∧
    (∀ d : TavilyResponse, d.error = none → (d.results.getD []).isEmpty = true →
      fmtSearch d = S "ما لقيتش نتائج.") ∧
    S "❌ Missing TAVILY_API_KEY" ≠ S "ما لقيتش نتائج." ∧
    S "❌ Missing TAVILY_API_KEY" ≠ ([] : Str) ∧
    S "ما لقيتش نتائج." ≠ ([] : Str) := by
  refine ⟨fun env q hk => ?_, fun d he hr => ?_, by decide, by decide, by decide⟩
  · unfold webSearch
    rw [hk]
    rfl
  · unfold fmtSearch
    rw [he]
    rw [if_neg (by decide), if_pos hr]

/-- C5 witness: the two degraded cases at concrete provider states. -/
theorem search_degraded_fixed_markers_instance :
    fmtSearch (webSearch env0 (S "news")) = S "❌ Missing TAVILY_API_KEY" ∧
    fmtSearch (webSearch env1 (S "news")) = S "ما لقيتش نتائج." := by
  constructor
  · exact search_degraded_fixed_markers.1 env0 (S "news") (by decide)
  · exact search_degraded_fixed_markers.2.1 (webSearch env1 (S "news")) (by decide) (by decide)

/-- C5 counterexample: the "unavailable" marker is not one designated text
shared by all degraded cases — the missing-credential reply and the
zero-results reply are different strings. -/
theorem search_markers_not_shared_cex :
    fmtSearch (webSearch env0 (S "news")) ≠ fmtSearch (webSearch env1 (S "news")) ∧
    fmtSearch (webSearch env0 (S "news")) = S "❌ Missing TAVILY_API_KEY" ∧
    fmtSearch (webSearch env1 (S "news")) = S "ما لقيتش نتائج." := by decide

/- ================= C6 ====================================================== -/

theorem map_text_mapIdx (env : Env) (texts : List Str) :
    ((texts.mapIdx fun i txt =>
      ({ id := env.freshId i, text := txt, done := false, ts := env.nowAt i } : PlanItem)).map
        PlanItem.text) = texts := by
  rw [List.mapIdx_eq_enum_map, List.map_map]
  have h : (PlanItem.text ∘ Function.uncurry fun i txt =>
      ({ id := env.freshId i, text := txt, done := false, ts := env.nowAt i } : PlanItem)) =
      Prod.snd := rfl
  rw [h, List.enum_map_snd]

theorem map_done_mapIdx (env : Env) (texts : List Str) :
    ((texts.mapIdx fun i txt =>
      ({ id := env.freshId i, text := txt, done := false, ts := env.nowAt i } : PlanItem)).map
        PlanItem.done) = List.replicate texts.length false := by
  rw [List.mapIdx_eq_enum_map, List.map_map]
  have h : (PlanItem.done ∘ Function.uncurry fun i txt =>
      ({ id := env.freshId i, text := txt, done := false, ts := env.nowAt i } : PlanItem)) =
      fun _ => false := rfl
  rw [h, List.map_const', List.enum_length]

/-- C6 (amended): `/morning auto` replaces the whole task list for the
INVOCATION date `todayStr()` (ignoring `planCursor`): the plans map gets the
generated list written under `env.today`, the generated texts are exactly the
two work blocks sized `max 1 (round(work/2))`, one health, one connection and
one rest block, followed by up to 3 `Top3:` tasks copied in order from that
day's recorded morning items, all initially not done. -/
theorem morning_auto_replaces_invocation_date_plan (env : Env) (u : User) :
    handleCommand env (S "/morning auto") u =
      some (S "✅ Built today's plan from Balance + Morning. Send /plan to see it.",
        { u with plans := (insertKV env.today
            (morningAutoTasks env u.balance.targets
              (((lookupKV env.today u.rituals.morning).getD {}).top3.getD [])) u.plans) }) ∧
    (∀ (t : BalanceTargets) (top3 : List Str),
      (morningAutoTasks env t top3).map PlanItem.text =
        [ S "Thesis/Work block 1 (≈" ++
            numToStr ((max 1 (jsRound (qDivNat t.work 2)) : ℤ) : ℚ) ++ S "h)",
          S "Thesis/Work block 2 (≈" ++
            numToStr ((max 1 (jsRound (qDivNat t.work 2)) : ℤ) : ℚ) ++ S "h)",
          S "Health (≈" ++ numToStr t.health ++ S "h): walk/gym/stretch",
          S "Love/Connection (≈" ++ numToStr t.love ++ S "h): message/call quality time",
          S "Rest (≈" ++ numToStr t.rest ++ S "h): calm time, no phone" ] ++
        (top3.take 3).map (fun x => S "Top3: " ++ x)) ∧
    (∀ (t : BalanceTargets) (top3 : List Str),
      (morningAutoTasks env t top3).map PlanItem.done =
        List.replicate (5 + min 3 top3.length) false) := by
  refine ⟨?_, fun t top3 => ?_, fun t top3 => ?_⟩
  · unfold handleCommand
    repeat rw [if_neg (by decide)]
    rw [if_pos (by decide)]
    rfl
  · unfold morningAutoTasks
    rw [map_text_mapIdx]
    rfl
  · unfold morningAutoTasks
    rw [map_done_mapIdx]
    congr 1
    simp only [morningAutoTexts, List.length_append, List.length_cons, List.length_nil,
      List.length_map, List.length_take]

/-- C6 counterexample: with `planCursor` set to 2026-10-13 (the claim's
"current date"), `/morning auto` leaves that date's task list untouched (the
old task survives) and writes the 5 generated tasks under the invocation date
2026-10-12 instead. -/
theorem morning_auto_ignores_cursor_cex :
    planDate env0 u1 = S "2026-10-13" ∧
    (handleCommand env0 (S "/morning auto") u1).map
        (fun p => lookupKV (S "2026-10-13") p.2.plans) =
      some (some [{ id := S "old1", text := S "old task", done := false, ts := S "t" }]) ∧
    (handleCommand env0 (S "/morning auto") u1).map
        (fun p => (lookupKV (S "2026-10-12") p.2.plans).map List.length) =
      some (some 5) := by decide

/- ================= C7 ====================================================== -/

theorem take_eq_of_isPrefixOf_append (pat a b : Str) (n : Nat) (hp : n ≤ pat.length)
    (ha : n ≤ a.length) (h : pat.isPrefixOf (a ++ b) = true) :
    pat.take n = a.take n := by
  obtain ⟨t, ht⟩ := List.isPrefixOf_iff_prefix.mp h
  have h2 := congrArg (List.take n) ht
  rwa [List.take_append_of_le_length hp, List.take_append_of_le_length ha] at h2

theorem append_ne_of_take_ne (a b lit : Str) (n : Nat) (hn : n ≤ a.length)
    (hne : ¬ a.take n = lit.take n) : ¬ (a ++ b = lit) := by
  intro h
  apply hne
  rw [← List.take_append_of_le_length hn, h]

/-- C7 (amended): for every id not present in the current date's plan,
`/plan done <id>` replies not-found and leaves the record unchanged EXCEPT
that the embedded `planList` call materialises an empty plan entry for the
current date when that date had no entry yet (`planMaterialize`). -/
theorem plan_done_unknown_id_not_found (env : Env) (u : User) (idArg : Str)
    (h : (planListGet u (planDate env u)).find?
      (fun x => x.id = jsTrim idArg) = none) :
    handleCommand env (S "/plan done " ++ idArg) u =
      some (S "Not found. Use /plan to see ids.", planMaterialize u (planDate env u)) := by
  have hlow : jsToLower (S "/plan done " ++ idArg) = S "/plan done " ++ jsToLower idArg := by
    unfold jsToLower
    rw [List.map_append]
    rw [show (S "/plan done ").map Char.toLower = S "/plan done " from by decide]
  unfold handleCommand
  rw [hlow]
  rw [if_neg (append_ne_of_take_ne _ _ _ 2 (by decide) (by decide))]
  rw [if_neg (append_ne_of_take_ne _ _ _ 3 (by decide) (by decide))]
  rw [if_neg (fun hp => absurd
    (take_eq_of_isPrefixOf_append _ _ _ 3 (by decide) (by decide) hp) (by decide))]
  rw [if_neg (append_ne_of_take_ne _ _ _ 2 (by decide) (by decide))]
  rw [if_neg (append_ne_of_take_ne _ _ _ 2 (by decide) (by decide))]
  rw [if_neg (append_ne_of_take_ne _ _ _ 2 (by decide) (by decide))]
  rw [if_neg (fun hp => absurd
    (take_eq_of_isPrefixOf_append _ _ _ 2 (by decide) (by decide) hp) (by decide))]
  rw [if_neg (fun hp => absurd
    (take_eq_of_isPrefixOf_append _ _ _ 2 (by decide) (by decide) hp) (by decide))]
  rw [if_neg (append_ne_of_take_ne _ _ _ 6 (by decide) (by decide))]
  rw [if_neg (append_ne_of_take_ne _ _ _ 7 (by decide) (by decide))]
  rw [if_neg (fun hp => absurd
    (take_eq_of_isPrefixOf_append _ _ _ 7 (by decide) (by decide) hp) (by decide))]
  rw [if_pos (List.isPrefixOf_iff_prefix.mpr ⟨jsToLower idArg, rfl⟩)]
  have hdrop : (S "/plan done " ++ idArg).drop 11 = idArg := by
    rw [show (11 : Nat) = (S "/plan done ").length from rfl, List.drop_left]
  unfold planDone
  dsimp only
  rw [hdrop, planListGet_materialize, h]
  rw [if_neg (by decide)]

/-- C7 witness: at a record with no plan entry for the addressed date. -/
theorem plan_done_unknown_id_not_found_instance :
    handleCommand env0 (S "/plan done xyz") u0 =
      some (S "Not found. Use /plan to see ids.", planMaterialize u0 (planDate env0 u0)) :=
  plan_done_unknown_id_not_found env0 u0 (S "xyz") (by decide)

/-- C7 counterexample: the failed `/plan done xyz` is not a pure no-op on the
record — the plans map acquires an empty entry for the current date. -/
theorem plan_done_not_found_mutates_cex :
    (handleCommand env0 (S "/plan done xyz") u0).map (fun p => (p.1, p.2.plans)) =
      some (S "Not found. Use /plan to see ids.", [(S "2026-10-12", ([] : List PlanItem))]) ∧
    u0.plans = [] ∧
    (handleCommand env0 (S "/plan done xyz") u0).map (fun p => decide (p.2 = u0)) =
      some false := by decide

/- ================= C8 ====================================================== -/

theorem splitCh_cons_of_ne (sep c : Char) (cs : Str) (h : ¬ c = sep) :
    splitCh sep (c :: cs) = consHead c (splitCh sep cs) := by
  simp only [splitCh]
  rw [if_neg h]

theorem splitCh_ne_nil (sep : Char) (l : Str) : splitCh sep l ≠ [] := by
  cases l with
  | nil => simp [splitCh]
  | cons c cs =>
    unfold splitCh
    split
    · simp
    · unfold consHead
      split <;> simp

theorem get1_eq_tail_get0 (l : List Str) : l.get? 1 = l.tail.get? 0 := by
  cases l <;> simp

/-- Splitting on a separator that does not occur in the leading chunk: the
second piece only depends on the remainder. -/
theorem splitCh_append_no_sep (sep : Char) (a r : Str) (ha : ∀ c ∈ a, c ≠ sep) :
    (splitCh sep (a ++ r)).get? 1 = (splitCh sep r).tail.get? 0 := by
  induction a with
  | nil =>
    simp only [List.nil_append]
    exact get1_eq_tail_get0 _
  | cons c a' ih =>
    have hc : ¬ c = sep := ha c (by simp)
    rw [List.cons_append, splitCh_cons_of_ne _ _ _ hc]
    have hon := splitCh_ne_nil sep (a' ++ r)
    obtain ⟨w, ws, hw⟩ : ∃ w ws, splitCh sep (a' ++ r) = w :: ws := by
      cases hsp : splitCh sep (a' ++ r) with
      | nil => exact absurd hsp hon
      | cons w ws => exact ⟨w, ws, rfl⟩
    have hih := ih (fun c2 hc2 => ha c2 (by simp [hc2]))
    rw [hw] at hih ⊢
    unfold consHead
    simpa using hih

theorem focusReply_congr (t t' : Str) (hlow : jsToLower t = jsToLower t')
    (hpref : (S "/focus").isPrefixOf (jsToLower t) = true)
    (hdrop : t.drop 6 = t'.drop 6) : focusReply t = focusReply t' := by
  obtain ⟨r, hr⟩ := List.isPrefixOf_iff_prefix.mp hpref
  have hmap : (t.take 6).map Char.toLower = S "/focus" := by
    have h6 := congrArg (List.take 6) hr
    rw [List.take_append_of_le_length (by decide)] at h6
    rw [show List.take 6 (S "/focus") = S "/focus" from by decide] at h6
    rw [jsToLower, ← List.map_take] at h6
    exact h6.symm
  have hmap' : (t'.take 6).map Char.toLower = S "/focus" := by
    have h6 := congrArg (List.take 6) hlow.symm
    rw [jsToLower, jsToLower, ← List.map_take, ← List.map_take] at h6
    rw [h6]
    exact hmap
  have hnsp : ∀ c ∈ t.take 6, c ≠ ' ' := by
    intro c hc heq
    subst heq
    have hmem := List.mem_map_of_mem Char.toLower hc
    rw [hmap] at hmem
    exact absurd hmem (by decide)
  have hnsp' : ∀ c ∈ t'.take 6, c ≠ ' ' := by
    intro c hc heq
    subst heq
    have hmem := List.mem_map_of_mem Char.toLower hc
    rw [hmap'] at hmem
    exact absurd hmem (by decide)
  have hsplit : (splitCh ' ' t).get? 1 = (splitCh ' ' t').get? 1 := by
    conv_lhs => rw [← List.take_append_drop 6 t]
    conv_rhs => rw [← List.take_append_drop 6 t']
    rw [splitCh_append_no_sep ' ' _ _ hnsp, splitCh_append_no_sep ' ' _ _ hnsp', hdrop]
  unfold focusReply
  rw [hsplit]

theorem coupleReply_congr (t t' : Str) (h : t.drop 8 = t'.drop 8) :
    coupleReply t = coupleReply t' := by
  unfold coupleReply
  rw [h]

theorem planAdd_congr (env : Env) (t t' : Str) (u : User) (h : t.drop 10 = t'.drop 10) :
    planAdd env t u = planAdd env t' u := by
  unfold planAdd
  rw [h]

theorem planDone_congr (env : Env) (t t' : Str) (u : User) (h : t.drop 11 = t'.drop 11) :
    planDone env t u = planDone env t' u := by
  unfold planDone
  rw [h]

theorem noteAdd_congr (env : Env) (t t' : Str) (u : User) (h : t.drop 6 = t'.drop 6) :
    noteAdd env t u = noteAdd env t' u := by
  unfold noteAdd
  rw [h]

theorem todoAdd_congr (env : Env) (t t' : Str) (u : User) (h : t.drop 6 = t'.drop 6) :
    todoAdd env t u = todoAdd env t' u := by
  unfold todoAdd
  rw [h]

theorem morningSet_congr (env : Env) (t t' : Str) (u : User) (h : t.drop 13 = t'.drop 13) :
    morningSet env t u = morningSet env t' u := by
  unfold morningSet
  rw [h]

theorem nightSet_congr (env : Env) (t t' : Str) (u : User) (h : t.drop 11 = t'.drop 11) :
    nightSet env t u = nightSet env t' u := by
  unfold nightSet
  rw [h]

theorem balanceSetCmd_congr (t t' : Str) (u : User) (h : t.drop 13 = t'.drop 13) :
    balanceSetCmd t u = balanceSetCmd t' u := by
  unfold balanceSetCmd
  rw [h]

/-- Offset at which the dispatched handler starts reading the original
(non-lowercased) text, per branch of `handleCommand`; branches that read
nothing from the original text map to the text's length (an empty
remainder). -/
def argStart (low : Str) : Nat :=
  if low = S "/help" then low.length
  else if low = S "/profile" then low.length
  else if (S "/profile set ").isPrefixOf low then 13
  else if low = S "/checkin" then low.length
  else if low = S "/stress" then low.length
  else if low = S "/breath" then low.length
  else if (S "/couple ").isPrefixOf low then 8
  else if (S "/focus").isPrefixOf low then 6
  else if low = S "/plan" then low.length
  else if low = S "/plan tomorrow" then low.length
  else if (S "/plan add ").isPrefixOf low then 10
  else if (S "/plan done ").isPrefixOf low then 11
  else if (S "/note ").isPrefixOf low then 6
  else if low = S "/notes" then low.length
  else if (S "/todo ").isPrefixOf low then 6
  else if low = S "/list" then low.length
  else if low = S "/morning" then low.length
  else if low = S "/morning auto" then low.length
  else if (S "/morning set ").isPrefixOf low then 13
  else if low = S "/night" then low.length
  else if (S "/night set ").isPrefixOf low then 11
  else if low = S "/balance" then low.length
  else if (S "/balance set ").isPrefixOf low then 13
  else if (S "/search ").isPrefixOf low then 8
  else if (S "/verify ").isPrefixOf low then 8
  else low.length

/-- C8 (amended): recognition of the command token is case-insensitive — two
texts with the same lowercasing are recognized identically — and for every
command EXCEPT `/profile set`, texts agreeing beyond the dispatched branch's
argument offset (i.e. the same message with the token recased) produce the
same reply and the same state mutation.  (`/profile set`, whose argument is
extracted by a case-sensitive `replace` of the lowercase literal, is the
exception — see the counterexample.) -/
theorem command_token_casing (env : Env) (u : User) (t t' : Str)
    (hlow : jsToLower t = jsToLower t') :
    (handleCommand env t u).isSome = (handleCommand env t' u).isSome ∧
    ((S "/profile set ").isPrefixOf (jsToLower t) = false →
      t.drop (argStart (jsToLower t)) = t'.drop (argStart (jsToLower t)) →
      handleCommand env t u = handleCommand env t' u) := by
  constructor
  · unfold handleCommand
    rw [← hlow]
    rcases Decidable.em (jsToLower t = S "/help") with c1 | c1
    · rw [if_pos c1, if_pos c1] <;> rfl
    rw [if_neg c1, if_neg c1]
    rcases Decidable.em (jsToLower t = S "/profile") with c2 | c2
    · rw [if_pos c2, if_pos c2] <;> rfl
    rw [if_neg c2, if_neg c2]
    rcases Decidable.em (List.isPrefixOf (S "/profile set ") (jsToLower t) = true) with c3 | c3
    · rw [if_pos c3, if_pos c3] <;> rfl
    rw [if_neg c3, if_neg c3]
    rcases Decidable.em (jsToLower t = S "/checkin") with c4 | c4
    · rw [if_pos c4, if_pos c4] <;> rfl
    rw [if_neg c4, if_neg c4]
    rcases Decidable.em (jsToLower t = S "/stress") with c5 | c5
    · rw [if_pos c5, if_pos c5] <;> rfl
    rw [if_neg c5, if_neg c5]
    rcases Decidable.em (jsToLower t = S "/breath") with c6 | c6
    · rw [if_pos c6, if_pos c6] <;> rfl
    rw [if_neg c6, if_neg c6]
    rcases Decidable.em (List.isPrefixOf (S "/couple ") (jsToLower t) = true) with c7 | c7
    · rw [if_pos c7, if_pos c7] <;> rfl
    rw [if_neg c7, if_neg c7]
    rcases Decidable.em (List.isPrefixOf (S "/focus") (jsToLower t) = true) with c8 | c8
    · rw [if_pos c8, if_pos c8] <;> rfl
    rw [if_neg c8, if_neg c8]
    rcases Decidable.em (jsToLower t = S "/plan") with c9 | c9
    · rw [if_pos c9, if_pos c9] <;> rfl
    rw [if_neg c9, if_neg c9]
    rcases Decidable.em (jsToLower t = S "/plan tomorrow") with c10 | c10
    · rw [if_pos c10, if_pos c10] <;> rfl
    rw [if_neg c10, if_neg c10]
    rcases Decidable.em (List.isPrefixOf (S "/plan add ") (jsToLower t) = true) with c11 | c11
    · rw [if_pos c11, if_pos c11] <;> rfl
    rw [if_neg c11, if_neg c11]
    rcases Decidable.em (List.isPrefixOf (S "/plan done ") (jsToLower t) = true) with c12 | c12
    · rw [if_pos c12, if_pos c12] <;> rfl
    rw [if_neg c12, if_neg c12]
    rcases Decidable.em (List.isPrefixOf (S "/note ") (jsToLower t) = true) with c13 | c13
    · rw [if_pos c13, if_pos c13] <;> rfl
    rw [if_neg c13, if_neg c13]
    rcases Decidable.em (jsToLower t = S "/notes") with c14 | c14
    · rw [if_pos c14, if_pos c14] <;> rfl
    rw [if_neg c14, if_neg c14]
    rcases Decidable.em (List.isPrefixOf (S "/todo ") (jsToLower t) = true) with c15 | c15
    · rw [if_pos c15, if_pos c15] <;> rfl
    rw [if_neg c15, if_neg c15]
    rcases Decidable.em (jsToLower t = S "/list") with c16 | c16
    · rw [if_pos c16, if_pos c16] <;> rfl
    rw [if_neg c16, if_neg c16]
    rcases Decidable.em (jsToLower t = S "/morning") with c17 | c17
    · rw [if_pos c17, if_pos c17] <;> rfl
    rw [if_neg c17, if_neg c17]
    rcases Decidable.em (jsToLower t = S "/morning auto") with c18 | c18
    · rw [if_pos c18, if_pos c18] <;> rfl
    rw [if_neg c18, if_neg c18]
    rcases Decidable.em (List.isPrefixOf (S "/morning set ") (jsToLower t) = true) with c19 | c19
    · rw [if_pos c19, if_pos c19] <;> rfl
    rw [if_neg c19, if_neg c19]
    rcases Decidable.em (jsToLower t = S "/night") with c20 | c20
    · rw [if_pos c20, if_pos c20] <;> rfl
    rw [if_neg c20, if_neg c20]
    rcases Decidable.em (List.isPrefixOf (S "/night set ") (jsToLower t) = true) with c21 | c21
    · rw [if_pos c21, if_pos c21] <;> rfl
    rw [if_neg c21, if_neg c21]
    rcases Decidable.em (jsToLower t = S "/balance") with c22 | c22
    · rw [if_pos c22, if_pos c22] <;> rfl
    rw [if_neg c22, if_neg c22]
    rcases Decidable.em (List.isPrefixOf (S "/balance set ") (jsToLower t) = true) with c23 | c23
    · rw [if_pos c23, if_pos c23] <;> rfl
    rw [if_neg c23, if_neg c23]
    rcases Decidable.em (List.isPrefixOf (S "/search ") (jsToLower t) = true) with c24 | c24
    · rw [if_pos c24, if_pos c24] <;> rfl
    rw [if_neg c24, if_neg c24]
    rcases Decidable.em (List.isPrefixOf (S "/verify ") (jsToLower t) = true) with c25 | c25
    · rw [if_pos c25, if_pos c25] <;> rfl
    rw [if_neg c25, if_neg c25]
  · intro hnp hdrop
    have hnp2 : ¬ (List.isPrefixOf (S "/profile set ") (jsToLower t) = true) := by
      rw [hnp]
      exact Bool.false_ne_true
    unfold argStart at hdrop
    unfold handleCommand
    rw [← hlow]
    rcases Decidable.em (jsToLower t = S "/help") with c1 | c1
    · rw [if_pos c1, if_pos c1] <;> rfl
    rw [if_neg c1] at hdrop
    rw [if_neg c1, if_neg c1]
    rcases Decidable.em (jsToLower t = S "/profile") with c2 | c2
    · rw [if_pos c2, if_pos c2] <;> rfl
    rw [if_neg c2] at hdrop
    rw [if_neg c2, if_neg c2]
    rcases Decidable.em (List.isPrefixOf (S "/profile set ") (jsToLower t) = true) with c3 | c3
    · exact absurd c3 hnp2
    rw [if_neg c3] at hdrop
    rw [if_neg c3, if_neg c3]
    rcases Decidable.em (jsToLower t = S "/checkin") with c4 | c4
    · rw [if_pos c4, if_pos c4] <;> rfl
    rw [if_neg c4] at hdrop
    rw [if_neg c4, if_neg c4]
    rcases Decidable.em (jsToLower t = S "/stress") with c5 | c5
    · rw [if_pos c5, if_pos c5] <;> rfl
    rw [if_neg c5] at hdrop
    rw [if_neg c5, if_neg c5]
    rcases Decidable.em (jsToLower t = S "/breath") with c6 | c6
    · rw [if_pos c6, if_pos c6] <;> rfl
    rw [if_neg c6] at hdrop
    rw [if_neg c6, if_neg c6]
    rcases Decidable.em (List.isPrefixOf (S "/couple ") (jsToLower t) = true) with c7 | c7
    · rw [if_pos c7] at hdrop
      rw [if_pos c7, if_pos c7]
      rw [coupleReply_congr t t' hdrop]
    rw [if_neg c7] at hdrop
    rw [if_neg c7, if_neg c7]
    rcases Decidable.em (List.isPrefixOf (S "/focus") (jsToLower t) = true) with c8 | c8
    · rw [if_pos c8] at hdrop
      rw [if_pos c8, if_pos c8]
      rw [focusReply_congr t t' hlow c8 hdrop]
    rw [if_neg c8] at hdrop
    rw [if_neg c8, if_neg c8]
    rcases Decidable.em (jsToLower t = S "/plan") with c9 | c9
    · rw [if_pos c9, if_pos c9] <;> rfl
    rw [if_neg c9] at hdrop
    rw [if_neg c9, if_neg c9]
    rcases Decidable.em (jsToLower t = S "/plan tomorrow") with c10 | c10
    · rw [if_pos c10, if_pos c10] <;> rfl
    rw [if_neg c10] at hdrop
    rw [if_neg c10, if_neg c10]
    rcases Decidable.em (List.isPrefixOf (S "/plan add ") (jsToLower t) = true) with c11 | c11
    · rw [if_pos c11] at hdrop
      rw [if_pos c11, if_pos c11]
      rw [planAdd_congr env t t' u hdrop]
    rw [if_neg c11] at hdrop
    rw [if_neg c11, if_neg c11]
    rcases Decidable.em (List.isPrefixOf (S "/plan done ") (jsToLower t) = true) with c12 | c12
    · rw [if_pos c12] at hdrop
      rw [if_pos c12, if_pos c12]
      rw [planDone_congr env t t' u hdrop]
    rw [if_neg c12] at hdrop
    rw [if_neg c12, if_neg c12]
    rcases Decidable.em (List.isPrefixOf (S "/note ") (jsToLower t) = true) with c13 | c13
    · rw [if_pos c13] at hdrop
      rw [if_pos c13, if_pos c13]
      rw [noteAdd_congr env t t' u hdrop]
    rw [if_neg c13] at hdrop
    rw [if_neg c13, if_neg c13]
    rcases Decidable.em (jsToLower t = S "/notes") with c14 | c14
    · rw [if_pos c14, if_pos c14] <;> rfl
    rw [if_neg c14] at hdrop
    rw [if_neg c14, if_neg c14]
    rcases Decidable.em (List.isPrefixOf (S "/todo ") (jsToLower t) = true) with c15 | c15
    · rw [if_pos c15] at hdrop
      rw [if_pos c15, if_pos c15]
      rw [todoAdd_congr env t t' u hdrop]
    rw [if_neg c15] at hdrop
    rw [if_neg c15, if_neg c15]
    rcases Decidable.em (jsToLower t = S "/list") with c16 | c16
    · rw [if_pos c16, if_pos c16] <;> rfl
    rw [if_neg c16] at hdrop
    rw [if_neg c16, if_neg c16]
    rcases Decidable.em (jsToLower t = S "/morning") with c17 | c17
    · rw [if_pos c17, if_pos c17] <;> rfl
    rw [if_neg c17] at hdrop
    rw [if_neg c17, if_neg c17]
    rcases Decidable.em (jsToLower t = S "/morning auto") with c18 | c18
    · rw [if_pos c18, if_pos c18] <;> rfl
    rw [if_neg c18] at hdrop
    rw [if_neg c18, if_neg c18]
    rcases Decidable.em (List.isPrefixOf (S "/morning set ") (jsToLower t) = true) with c19 | c19
    · rw [if_pos c19] at hdrop
      rw [if_pos c19, if_pos c19]
      rw [morningSet_congr env t t' u hdrop]
    rw [if_neg c19] at hdrop
    rw [if_neg c19, if_neg c19]
    rcases Decidable.em (jsToLower t = S "/night") with c20 | c20
    · rw [if_pos c20, if_pos c20] <;> rfl
    rw [if_neg c20] at hdrop
    rw [if_neg c20, if_neg c20]
    rcases Decidable.em (List.isPrefixOf (S "/night set ") (jsToLower t) = true) with c21 | c21
    · rw [if_pos c21] at hdrop
      rw [if_pos c21, if_pos c21]
      rw [nightSet_congr env t t' u hdrop]
    rw [if_neg c21] at hdrop
    rw [if_neg c21, if_neg c21]
    rcases Decidable.em (jsToLower t = S "/balance") with c22 | c22
    · rw [if_pos c22, if_pos c22] <;> rfl
    rw [if_neg c22] at hdrop
    rw [if_neg c22, if_neg c22]
    rcases Decidable.em (List.isPrefixOf (S "/balance set ") (jsToLower t) = true) with c23 | c23
    · rw [if_pos c23] at hdrop
      rw [if_pos c23, if_pos c23]
      rw [balanceSetCmd_congr t t' u hdrop]
    rw [if_neg c23] at hdrop
    rw [if_neg c23, if_neg c23]
    rcases Decidable.em (List.isPrefixOf (S "/search ") (jsToLower t) = true) with c24 | c24
    · rw [if_pos c24] at hdrop
      rw [if_pos c24, if_pos c24]
      rw [hdrop]
    rw [if_neg c24] at hdrop
    rw [if_neg c24, if_neg c24]
    rcases Decidable.em (List.isPrefixOf (S "/verify ") (jsToLower t) = true) with c25 | c25
    · rw [if_pos c25] at hdrop
      rw [if_pos c25, if_pos c25]
      rw [hdrop]
    rw [if_neg c25] at hdrop
    rw [if_neg c25, if_neg c25]

/-- C8 witness: `/Plan Tomorrow` and `/plan tomorrow` dispatch to the same
handler and produce the same reply and state. -/
theorem command_token_casing_instance :
    handleCommand env0 (S "/Plan Tomorrow") u0 = handleCommand env0 (S "/plan tomorrow") u0 :=
  (command_token_casing env0 u0 (S "/Plan Tomorrow") (S "/plan tomorrow") (by decide)).2
    (by decide) (by decide)

/-- C8 counterexample: `/PROFILE SET name=x` is recognized (token matching is
case-insensitive) but performs a DIFFERENT state mutation than
`/profile set name=x`: the argument is extracted with a case-sensitive
`replace` of the lowercase literal, so the uppercase variant sets the profile
key `/PROFILE SET name` instead of `name`. -/
theorem profile_set_token_casing_cex :
    (handleCommand env0 (S "/PROFILE SET name=x") u0).isSome = true ∧
    (handleCommand env0 (S "/PROFILE SET name=x") u0).map (fun p => p.2.profile) =
      some [(S "name", S "Zak"), (S "/PROFILE SET name", S "x")] ∧
    (handleCommand env0 (S "/profile set name=x") u0).map (fun p => p.2.profile) =
      some [(S "name", S "x")] := by decide

/- ================= C9 ====================================================== -/

/-- C9 (amended): an inbound request whose text is empty or missing (or
whitespace-only, which trims to empty) is a no-op on the store — no record is
created or mutated and nothing downstream runs — but the handler does return
reply content: the fixed prompt `Send a message 🙂`. -/
theorem empty_text_noop_fixed_prompt (env : Env) (db : DB) (b snd : Option Str)
    (h : jsTrim (b.getD []) = []) :
    whatsappStep env db { body := b, sender := snd } = (S "Send a message 🙂", db) := by
  unfold whatsappStep
  dsimp only
  rw [h]
  rfl

/-- C9 witness: a whitespace-only body at a concrete store. -/
theorem empty_text_noop_fixed_prompt_instance :
    whatsappStep env0 db0 { body := some (S "   "), sender := some (S "u") } =
      (S "Send a message 🙂", db0) :=
  empty_text_noop_fixed_prompt env0 db0 (some (S "   ")) (some (S "u")) (by decide)

/-- C9 counterexample: for a missing body the handler does return reply
content — the fixed prompt — rather than no reply content. -/
theorem empty_text_reply_content_cex :
    whatsappStep env0 [] { body := none, sender := some (S "u") } =
      (S "Send a message 🙂", []) ∧
    (whatsappStep env0 [] { body := none, sender := some (S "u") }).1 ≠ [] := by decide
